import Mathlib

/-
Verification development for the DiffDelta fleet engine
(`scripts/diffdelta_engine.py`).

Shallow-embedding conventions:
* Python strings are Lean `String`s; `str.strip()` / `str.split()` are
  modelled on the underlying character lists (`pyStrip`, `pyWords`) with
  the ASCII whitespace set of `Char.isWhitespace`.
* SHA-256 (`hashlib.sha256(...).hexdigest()`) is an external library
  primitive, not code of this repository; every engine definition is
  parameterised by an arbitrary hex-digest function
  `sha256hex : String → String` applied to the UTF-8 canonical-JSON text.
* Python `dict`s are association lists with unique keys; `json.dumps`
  with `sort_keys=True, separators=(',', ':'), ensure_ascii=False` is
  `canonStr` below.
* The engine's float risk scores are multiples of 0.1 drawn from
  {0.2, 0.2, 0.2, 0.5} summed and capped at 1.0.  For these values IEEE
  double arithmetic is exact (0.2+0.2 is exactly the double 0.4, etc.),
  so scores are modelled as exact integer tenths (`Nat`, 0..10) with the
  flagging threshold 0.4 becoming 4 tenths; theorem statements also
  expose the rational view `score / 10 : ℚ`.
* Wall-clock timestamps (`now_iso()`) and HTTP fetch outcomes are inputs
  of the embedded functions.
-/

-- ===== Python string helpers =====

/-- Model of Python `str.strip()`: drop leading and trailing whitespace
from the character list. -/
def pyStrip (s : String) : String :=
  String.mk (((s.data.dropWhile Char.isWhitespace).reverse.dropWhile
    Char.isWhitespace).reverse)

/-- Model of Python string truthiness fallback `a or b` for strings:
the empty string is falsy. -/
def pyOr (a b : String) : String :=
  if a = "" then b else a

/-- Model of Python `a or b` where `a` is an optional string (`None` and
`""` are both falsy). -/
def pyOrOpt (a : Option String) (b : String) : String :=
  match a with
  | some s => if s = "" then b else s
  | Option.none => b

/-- Truthiness of an optional string (Python: `None` and `""` falsy). -/
def optStrTruthy (a : Option String) : Bool :=
  match a with
  | some s => s ≠ ""
  | Option.none => false

def wordsAux : List Char → List Char → List String
  | [], acc => if acc = [] then [] else [String.mk acc.reverse]
  | c :: rest, acc =>
    if c.isWhitespace then
      (if acc = [] then wordsAux rest [] else String.mk acc.reverse :: wordsAux rest [])
    else wordsAux rest (c :: acc)

/-- Model of Python `str.split()` with no argument: split on runs of
whitespace, discarding empty tokens. -/
def pyWords (s : String) : List String := wordsAux s.data []

/-- Model of Python `str.capitalize()`: first character upper-cased,
remaining characters lower-cased. -/
def pyCapitalize (s : String) : String :=
  match s.data with
  | [] => ""
  | c :: rest => String.mk (c.toUpper :: rest.map Char.toLower)

/-- Model of Python slicing `s[:n]` (by code point). -/
def pySlice (s : String) (n : Nat) : String := String.mk (s.data.take n)

/-- The single-quote character, used by the narrative templates. -/
def sglQuote : String := String.singleton (Char.ofNat 39)

-- ===== Code-point string comparison (Python string `<`) =====

/-- Lexicographic comparison of character lists by code point, the order
Python uses for `sorted` on strings. -/
def charsLe : List Char → List Char → Bool
  | [], _ => true
  | _ :: _, [] => false
  | a :: as, b :: bs =>
    if a.toNat < b.toNat then true
    else if b.toNat < a.toNat then false
    else charsLe as bs

def strLe (a b : String) : Bool := charsLe a.data b.data

theorem charsLe_total : ∀ a b : List Char, charsLe a b = true ∨ charsLe b a = true := by
  intro a
  induction a with
  | nil => intro b; left; rfl
  | cons x xs ih =>
    intro b
    cases b with
    | nil => right; rfl
    | cons y ys =>
      simp only [charsLe]
      rcases Nat.lt_trichotomy x.toNat y.toNat with h | h | h
      · left; simp [h]
      · have hxy : ¬ x.toNat < y.toNat := by omega
        have hyx : ¬ y.toNat < x.toNat := by omega
        simpa [hxy, hyx] using ih ys
      · right; simp [h, Nat.lt_asymm h]

theorem char_toNat_inj {x y : Char} (h : x.toNat = y.toNat) : x = y := by
  apply Char.ext
  exact UInt32.ext h

theorem charsLe_antisymm : ∀ a b : List Char, charsLe a b = true → charsLe b a = true → a = b := by
  intro a
  induction a with
  | nil =>
    intro b h₁ h₂
    cases b with
    | nil => rfl
    | cons y ys => simp [charsLe] at h₂
  | cons x xs ih =>
    intro b h₁ h₂
    cases b with
    | nil => simp [charsLe] at h₁
    | cons y ys =>
      simp only [charsLe] at h₁ h₂
      by_cases hxy : x.toNat < y.toNat
      · rw [if_neg (by omega), if_pos (by omega)] at h₂
        exact absurd h₂ (by simp)
      · by_cases hyx : y.toNat < x.toNat
        · rw [if_neg hxy, if_pos hyx] at h₁
          exact absurd h₁ (by simp)
        · rw [if_neg hxy, if_neg hyx] at h₁
          rw [if_neg (by omega), if_neg (by omega)] at h₂
          rw [char_toNat_inj (show x.toNat = y.toNat by omega), ih ys h₁ h₂]

theorem charsLe_trans : ∀ a b c : List Char, charsLe a b = true → charsLe b c = true →
    charsLe a c = true := by
  intro a
  induction a with
  | nil => intro b c h₁ h₂; rfl
  | cons x xs ih =>
    intro b c h₁ h₂
    cases b with
    | nil => simp [charsLe] at h₁
    | cons y ys =>
      cases c with
      | nil => simp [charsLe] at h₂
      | cons z zs =>
        simp only [charsLe] at h₁ h₂ ⊢
        by_cases hxy : x.toNat < y.toNat
        · by_cases hzy : z.toNat < y.toNat
          · rw [if_neg (by omega), if_pos (by omega)] at h₂
            exact absurd h₂ (by simp)
          · rw [if_pos (by omega)]
        · by_cases hyx : y.toNat < x.toNat
          · rw [if_neg hxy, if_pos hyx] at h₁
            exact absurd h₁ (by simp)
          · rw [if_neg hxy, if_neg hyx] at h₁
            by_cases hyz : y.toNat < z.toNat
            · rw [if_pos (by omega)]
            · by_cases hzy : z.toNat < y.toNat
              · rw [if_neg hyz, if_pos hzy] at h₂
                exact absurd h₂ (by simp)
              · rw [if_neg hyz, if_neg hzy] at h₂
                rw [if_neg (by omega), if_neg (by omega)]
                exact ih ys zs h₁ h₂

theorem strLe_total (a b : String) : strLe a b = true ∨ strLe b a = true :=
  charsLe_total a.data b.data

theorem strLe_antisymm {a b : String} (h₁ : strLe a b = true) (h₂ : strLe b a = true) : a = b := by
  cases a; cases b
  exact congrArg String.mk (charsLe_antisymm _ _ h₁ h₂)

theorem strLe_trans {a b c : String} (h₁ : strLe a b = true) (h₂ : strLe b c = true) :
    strLe a c = true :=
  charsLe_trans a.data b.data c.data h₁ h₂

-- ===== Stable insertion sort by a string key (Python `sorted(key=...)`) =====

def insertLe {α : Type} (key : α → String) (x : α) : List α → List α
  | [] => [x]
  | y :: ys => if strLe (key x) (key y) then x :: y :: ys else y :: insertLe key x ys

/-- Stable sort by a string key; models Python `sorted(l, key=...)` and
`list.sort(key=...)` (code-point comparison on the key). -/
def sortByKey {α : Type} (key : α → String) : List α → List α
  | [] => []
  | x :: xs => insertLe key x (sortByKey key xs)

theorem insertLe_perm {α : Type} (key : α → String) (x : α) (l : List α) :
    List.Perm (insertLe key x l) (x :: l) := by
  induction l with
  | nil => simp [insertLe]
  | cons y ys ih =>
    simp only [insertLe]
    split
    · exact List.Perm.refl _
    · exact List.Perm.trans (ih.cons y) (List.Perm.swap x y ys)

theorem sortByKey_perm {α : Type} (key : α → String) (l : List α) :
    List.Perm (sortByKey key l) l := by
  induction l with
  | nil => simp [sortByKey]
  | cons x xs ih =>
    exact List.Perm.trans (insertLe_perm key x (sortByKey key xs)) (ih.cons x)

theorem insertLe_pairwise {α : Type} (key : α → String) (x : α) : ∀ l : List α,
    List.Pairwise (fun a b => strLe (key a) (key b) = true) l →
    List.Pairwise (fun a b => strLe (key a) (key b) = true) (insertLe key x l) := by
  intro l
  induction l with
  | nil => intro h; simp [insertLe]
  | cons y ys ih =>
    intro h
    cases h with
    | cons hy hys =>
      simp only [insertLe]
      split
      · rename_i hxy
        refine List.Pairwise.cons ?_ (List.Pairwise.cons hy hys)
        intro z hz
        rcases List.mem_cons.mp hz with hz | hz
        · rw [hz]; exact hxy
        · exact strLe_trans hxy (hy z hz)
      · rename_i hxy
        have hyx : strLe (key y) (key x) = true := by
          rcases strLe_total (key x) (key y) with hle | hge
          · exact absurd hle hxy
          · exact hge
        refine List.Pairwise.cons ?_ (ih hys)
        intro z hz
        rcases List.mem_cons.mp ((insertLe_perm key x ys).mem_iff.mp hz) with hz | hz
        · rw [hz]; exact hyx
        · exact hy z hz

theorem sortByKey_pairwise {α : Type} (key : α → String) (l : List α) :
    List.Pairwise (fun a b => strLe (key a) (key b) = true) (sortByKey key l) := by
  induction l with
  | nil => simp [sortByKey]
  | cons x xs ih => exact insertLe_pairwise key x (sortByKey key xs) ih

theorem sortByKey_sorted_strict {α : Type} (key : α → String) (l : List α)
    (hnd : (l.map key).Nodup) :
    List.Pairwise (fun a b => strLe (key a) (key b) = true ∧ key a ≠ key b) (sortByKey key l) := by
  have hnd₁ : (List.map key (sortByKey key l)).Nodup :=
    (((sortByKey_perm key l).map key).nodup_iff).mpr hnd
  exact (sortByKey_pairwise key l).and (List.pairwise_map.mp hnd₁)

theorem sortByKey_eq_of_perm_nodupKeys {α : Type} (key : α → String) {l₁ l₂ : List α}
    (hp : List.Perm l₁ l₂) (hnd : (l₁.map key).Nodup) :
    sortByKey key l₁ = sortByKey key l₂ := by
  have hp' : List.Perm (sortByKey key l₁) (sortByKey key l₂) :=
    List.Perm.trans (sortByKey_perm key l₁) (List.Perm.trans hp (sortByKey_perm key l₂).symm)
  have hnd₁ : (List.map key (sortByKey key l₁)).Nodup :=
    (((sortByKey_perm key l₁).map key).nodup_iff).mpr hnd
  have hndl₂ : (l₂.map key).Nodup := ((hp.map key).nodup_iff).mp hnd
  have hnd₂ : (List.map key (sortByKey key l₂)).Nodup :=
    (((sortByKey_perm key l₂).map key).nodup_iff).mpr hndl₂
  have hne₁ : List.Pairwise (fun a b => key a ≠ key b) (sortByKey key l₁) :=
    List.pairwise_map.mp hnd₁
  have hne₂ : List.Pairwise (fun a b => key a ≠ key b) (sortByKey key l₂) :=
    List.pairwise_map.mp hnd₂
  have hs₁ := (sortByKey_pairwise key l₁).and hne₁
  have hs₂ := (sortByKey_pairwise key l₂).and hne₂
  haveI : IsAntisymm α (fun a b => strLe (key a) (key b) = true ∧ key a ≠ key b) := by
    constructor
    intro a b hab hba
    exact absurd (strLe_antisymm hab.1 hba.1) hab.2
  exact List.eq_of_perm_of_sorted hp' hs₁ hs₂

theorem insertLe_map_comm {α β : Type} (keyA : α → String) (keyB : β → String)
    (f : α → β) (hkey : ∀ a, keyB (f a) = keyA a) (x : α) (l : List α) :
    insertLe keyB (f x) (l.map f) = (insertLe keyA x l).map f := by
  induction l with
  | nil => simp [insertLe]
  | cons y ys ih =>
    simp only [List.map_cons, insertLe, hkey]
    split
    · simp
    · simp [ih]

theorem sortByKey_map_comm {α β : Type} (keyA : α → String) (keyB : β → String)
    (f : α → β) (hkey : ∀ a, keyB (f a) = keyA a) (l : List α) :
    sortByKey keyB (l.map f) = (sortByKey keyA l).map f := by
  induction l with
  | nil => simp [sortByKey]
  | cons x xs ih =>
    simp only [List.map_cons, sortByKey, ih]
    exact insertLe_map_comm keyA keyB f hkey x (sortByKey keyA xs)

-- ===== JSON-compatible values (Python dict/list/str/int/bool/None) =====

mutual
inductive JVal where
  | null : JVal
  | bool : Bool → JVal
  | num : Int → JVal
  | str : String → JVal
  | arr : JArr → JVal
  | obj : JObj → JVal
deriving DecidableEq
inductive JArr where
  | nil : JArr
  | cons : JVal → JArr → JArr
deriving DecidableEq
inductive JObj where
  | nil : JObj
  | cons : String → JVal → JObj → JObj
deriving DecidableEq
end

def JObj.toList : JObj → List (String × JVal)
  | JObj.nil => []
  | JObj.cons k v rest => (k, v) :: JObj.toList rest

def JObj.ofList : List (String × JVal) → JObj
  | [] => JObj.nil
  | (k, v) :: rest => JObj.cons k v (JObj.ofList rest)

def JArr.toList : JArr → List JVal
  | JArr.nil => []
  | JArr.cons v rest => v :: JArr.toList rest

def JArr.ofList : List JVal → JArr
  | [] => JArr.nil
  | v :: rest => JArr.cons v (JArr.ofList rest)

/-- Convenience constructor for a JSON object from an association list. -/
def JVal.mkObj (kvs : List (String × JVal)) : JVal := JVal.obj (JObj.ofList kvs)

/-- Convenience constructor for a JSON array from a list. -/
def JVal.mkArr (vs : List JVal) : JVal := JVal.arr (JArr.ofList vs)

/-- Python truthiness of a JSON value (`None`, `False`, `0`, `""`, `[]`,
and the empty dict are falsy). -/
def pyTruthy : JVal → Bool
  | JVal.null => false
  | JVal.bool b => b
  | JVal.num n => n ≠ 0
  | JVal.str s => s ≠ ""
  | JVal.arr a => a ≠ JArr.nil
  | JVal.obj o => o ≠ JObj.nil

-- ===== Canonical JSON text (json.dumps sort_keys separators no-spaces) =====

def hexDigitChar (n : Nat) : Char :=
  if n < 10 then Char.ofNat (48 + n) else Char.ofNat (87 + n)

def hex4 (n : Nat) : String :=
  String.mk [hexDigitChar ((n / 4096) % 16), hexDigitChar ((n / 256) % 16),
             hexDigitChar ((n / 16) % 16), hexDigitChar (n % 16)]

/-- JSON string escaping as performed by Python `json.dumps` with
`ensure_ascii=False`: escape the quote, the backslash and control
characters, and leave everything else alone. -/
def escapeChar (c : Char) : String :=
  if c = Char.ofNat 34 then String.mk [Char.ofNat 92, Char.ofNat 34]
  else if c = Char.ofNat 92 then String.mk [Char.ofNat 92, Char.ofNat 92]
  else if c = Char.ofNat 10 then String.mk [Char.ofNat 92, Char.ofNat 110]
  else if c = Char.ofNat 9 then String.mk [Char.ofNat 92, Char.ofNat 116]
  else if c = Char.ofNat 13 then String.mk [Char.ofNat 92, Char.ofNat 114]
  else if c = Char.ofNat 8 then String.mk [Char.ofNat 92, Char.ofNat 98]
  else if c = Char.ofNat 12 then String.mk [Char.ofNat 92, Char.ofNat 102]
  else if c.toNat < 32 then String.mk [Char.ofNat 92, Char.ofNat 117] ++ hex4 c.toNat
  else String.singleton c

def jsonEscape (s : String) : String :=
  String.mk [Char.ofNat 34] ++ String.join (s.data.map escapeChar) ++ String.mk [Char.ofNat 34]

mutual
/-- Canonical JSON text of a value: the model of
`json.dumps(obj, sort_keys=True, separators=(',', ':'), ensure_ascii=False)`
from `canonical_json` (`diffdelta_engine.py`).  Object members are
serialised in ascending code-point order of their keys. -/
def canonStr : JVal → String
  | JVal.null => "null"
  | JVal.bool b => if b then "true" else "false"
  | JVal.num n => toString n
  | JVal.str s => jsonEscape s
  | JVal.arr xs => "[" ++ String.intercalate "," (canonArr xs) ++ "]"
  | JVal.obj o =>
    "\x7b" ++ String.intercalate "," ((sortByKey Prod.fst (canonObjPairs o)).map Prod.snd) ++ "\x7d"
def canonArr : JArr → List String
  | JArr.nil => []
  | JArr.cons v rest => canonStr v :: canonArr rest
def canonObjPairs : JObj → List (String × String)
  | JObj.nil => []
  | JObj.cons k v rest => (k, jsonEscape k ++ ":" ++ canonStr v) :: canonObjPairs rest
end

/-- `canonical_json` of the engine returns UTF-8 bytes of the canonical
text; byte strings are modelled by the text itself (UTF-8 encoding is
injective). -/
def canonical_json (obj : JVal) : String := canonStr obj

-- ===== Key-permutation relation =====

mutual
/-- Two JSON values are related when one is obtained from the other by
permuting the member order of objects, at any nesting level, without
touching anything else.  Objects are Python dicts, whose keys are
unique, so the relation carries the no-duplicate-keys fact. -/
inductive KeyPerm : JVal → JVal → Prop
  | null : KeyPerm JVal.null JVal.null
  | bool : ∀ b, KeyPerm (JVal.bool b) (JVal.bool b)
  | num : ∀ n, KeyPerm (JVal.num n) (JVal.num n)
  | str : ∀ s, KeyPerm (JVal.str s) (JVal.str s)
  | arr : ∀ {xs ys}, KeyPermArr xs ys → KeyPerm (JVal.arr xs) (JVal.arr ys)
  | obj : ∀ {o₁ o₂ o₃}, KeyPermObj o₁ o₂ → List.Perm (JObj.toList o₂) (JObj.toList o₃) →
      ((JObj.toList o₁).map Prod.fst).Nodup → KeyPerm (JVal.obj o₁) (JVal.obj o₃)
inductive KeyPermArr : JArr → JArr → Prop
  | nil : KeyPermArr JArr.nil JArr.nil
  | cons : ∀ {v w xs ys}, KeyPerm v w → KeyPermArr xs ys →
      KeyPermArr (JArr.cons v xs) (JArr.cons w ys)
inductive KeyPermObj : JObj → JObj → Prop
  | nil : KeyPermObj JObj.nil JObj.nil
  | cons : ∀ (k : String) {v w r s}, KeyPerm v w → KeyPermObj r s →
      KeyPermObj (JObj.cons k v r) (JObj.cons k w s)
end

theorem canonObjPairs_eq_map : ∀ o : JObj,
    canonObjPairs o = (JObj.toList o).map (fun kv => (kv.1, jsonEscape kv.1 ++ ":" ++ canonStr kv.2))
  | JObj.nil => rfl
  | JObj.cons k v rest => by
    simp [canonObjPairs, JObj.toList, canonObjPairs_eq_map rest]

theorem canonObjPairs_fst (o : JObj) :
    (canonObjPairs o).map Prod.fst = (JObj.toList o).map Prod.fst := by
  rw [canonObjPairs_eq_map, List.map_map]
  rfl

mutual
theorem keyPerm_canonStr : ∀ {v w : JVal}, KeyPerm v w → canonStr v = canonStr w
  | _, _, KeyPerm.null => rfl
  | _, _, KeyPerm.bool _ => rfl
  | _, _, KeyPerm.num _ => rfl
  | _, _, KeyPerm.str _ => rfl
  | _, _, KeyPerm.arr h => by
    rw [show ∀ xs, canonStr (JVal.arr xs) = "[" ++ String.intercalate "," (canonArr xs) ++ "]"
      from fun _ => rfl]
    rw [show ∀ xs, canonStr (JVal.arr xs) = "[" ++ String.intercalate "," (canonArr xs) ++ "]"
      from fun _ => rfl]
    rw [keyPermArr_canonArr h]
  | _, _, @KeyPerm.obj o₁ o₂ o₃ hobj hperm hnd => by
    have e₁ : canonObjPairs o₁ = canonObjPairs o₂ := keyPermObj_canonObjPairs hobj
    have e₂ : List.Perm (canonObjPairs o₂) (canonObjPairs o₃) := by
      rw [canonObjPairs_eq_map, canonObjPairs_eq_map]
      exact hperm.map _
    have hndp : ((canonObjPairs o₁).map Prod.fst).Nodup := by
      rw [canonObjPairs_fst]; exact hnd
    have hsort : sortByKey Prod.fst (canonObjPairs o₁) = sortByKey Prod.fst (canonObjPairs o₃) := by
      apply sortByKey_eq_of_perm_nodupKeys Prod.fst (e₁ ▸ e₂) hndp
    show "\x7b" ++ String.intercalate "," ((sortByKey Prod.fst (canonObjPairs o₁)).map Prod.snd) ++ "\x7d"
      = "\x7b" ++ String.intercalate "," ((sortByKey Prod.fst (canonObjPairs o₃)).map Prod.snd) ++ "\x7d"
    rw [hsort]
theorem keyPermArr_canonArr : ∀ {xs ys : JArr}, KeyPermArr xs ys → canonArr xs = canonArr ys
  | _, _, KeyPermArr.nil => rfl
  | _, _, KeyPermArr.cons hv hrest => by
    show canonStr _ :: canonArr _ = canonStr _ :: canonArr _
    rw [keyPerm_canonStr hv, keyPermArr_canonArr hrest]
theorem keyPermObj_canonObjPairs : ∀ {r s : JObj}, KeyPermObj r s →
    canonObjPairs r = canonObjPairs s
  | _, _, KeyPermObj.nil => rfl
  | _, _, KeyPermObj.cons k hv hrest => by
    show (k, jsonEscape k ++ ":" ++ canonStr _) :: canonObjPairs _
      = (k, jsonEscape k ++ ":" ++ canonStr _) :: canonObjPairs _
    rw [keyPerm_canonStr hv, keyPermObj_canonObjPairs hrest]
end

-- ===== pyStrip facts =====

theorem mem_dropWhile_of_not {α : Type} (p : α → Bool) :
    ∀ (l : List α) (a : α), a ∈ l → p a = false → a ∈ l.dropWhile p := by
  intro l
  induction l with
  | nil => intro a ha _; exact absurd ha (List.not_mem_nil a)
  | cons x xs ih =>
    intro a ha hpa
    rcases List.mem_cons.mp ha with ha | ha
    · subst ha
      rw [List.dropWhile_cons, hpa]
      exact List.mem_cons_self a xs
    · rw [List.dropWhile_cons]
      by_cases hx : p x = true
      · rw [if_pos hx]
        exact ih a ha hpa
      · rw [if_neg hx]
        exact List.mem_cons_of_mem x ha

theorem dropWhile_head_not {α : Type} (p : α → Bool) :
    ∀ (l : List α) (c : α) (rest : List α), List.dropWhile p l = c :: rest → p c = false := by
  intro l
  induction l with
  | nil => intro c rest h; simp [List.dropWhile] at h
  | cons x xs ih =>
    intro c rest h
    rw [List.dropWhile_cons] at h
    by_cases hx : p x = true
    · rw [if_pos hx] at h
      exact ih c rest h
    · rw [if_neg hx] at h
      cases h
      exact Bool.not_eq_true _ |>.mp hx

theorem pyStrip_has_non_whitespace (s : String) (h : pyStrip s ≠ "") :
    (pyStrip s).data.any (fun c => ! c.isWhitespace) = true := by
  unfold pyStrip at h ⊢
  rcases hd : s.data.dropWhile Char.isWhitespace with _ | ⟨c, rest⟩
  · rw [hd] at h
    simp at h
  · have hc : c.isWhitespace = false := dropWhile_head_not Char.isWhitespace s.data c rest hd
    have hmem : c ∈ ((c :: rest).reverse.dropWhile Char.isWhitespace).reverse := by
      rw [List.mem_reverse]
      exact mem_dropWhile_of_not Char.isWhitespace (c :: rest).reverse c
        (by rw [List.mem_reverse]; exact List.mem_cons_self c rest) hc
    rw [List.any_eq_true]
    exact ⟨c, hmem, by rw [hc]; rfl⟩

-- ===== Engine constants (diffdelta_engine.py, module level) =====

def SCHEMA_VERSION : String := "1.0.0"

def GENERATOR_VERSION : String := "fleet-engine/1.0.0"

/-- The sentinel cursor `"sha256:" + "0" * 64` meaning never observed. -/
def zeroCursor : String := "sha256:" ++ String.mk (List.replicate 64 (Char.ofNat 48))

-- ===== Normalized items =====

/-- The normalized projection of an upstream item produced by the
adapters' `normalize_item` (keys `source, id, url, title?, published_at,
updated_at, content`; the `title` key is popped when falsy). -/
structure NormItem where
  source : String
  id : String
  url : String
  title : Option String
  published_at : String
  updated_at : String
  content : String
deriving DecidableEq

-- ===== Risk v0 (calculate_risk_v0) =====

/-- Does Python `http_status is not None and http_status != 200` hold? -/
def httpNon200 : Option Int → Bool
  | some s => s != 200
  | Option.none => false

/--
`calculate_risk_v0(item, fetch_failed, http_status)`.

Scores are exact tenths of the engine's float values: the code adds
`0.2` per missing/blank field, `0.5` on a failed or non-200 transport,
and caps at `1.0`.  All those doubles are exact multiples of 0.1 whose
IEEE sums and comparisons coincide with exact arithmetic, so the model
uses `2`, `5` and a cap of `10`.  The blank checks mirror
`if not title or not title.strip()`.
-/
def calculate_risk_v0 (item : NormItem) (fetch_failed : Bool) (http_status : Option Int) :
    Nat × List String :=
  let title := item.title.getD ""
  let url := item.url
  let content := item.content
  let s0 : Nat × List String := (0, [])
  let s1 := if title = "" ∨ pyStrip title = "" then (s0.1 + 2, s0.2 ++ ["missing_title"]) else s0
  let s2 := if url = "" ∨ pyStrip url = "" then (s1.1 + 2, s1.2 ++ ["missing_url"]) else s1
  let s3 := if content = "" ∨ pyStrip content = "" then (s2.1 + 2, s2.2 ++ ["missing_content"]) else s2
  let s4 := if fetch_failed || httpNon200 http_status then (s3.1 + 5, s3.2 ++ ["fetch_error"]) else s3
  (min 10 s4.1, s4.2.take 10)

-- ===== Content hash (compute_content_hash) =====

/-- `compute_content_hash(item)`: SHA-256 of the canonical JSON of the
whitespace-stripped `{title, content, url}` projection. -/
def compute_content_hash (sha256hex : String → String) (item : NormItem) : String :=
  sha256hex (canonical_json (JVal.mkObj [
    ("title", JVal.str (pyStrip (item.title.getD ""))),
    ("content", JVal.str (pyStrip item.content)),
    ("url", JVal.str (pyStrip item.url))]))

-- ===== Source hash (BaseAdapter.compute_source_hash) =====

/-- One entry of the source-hash canonical item list. -/
structure HashEntry where
  id : String
  url : String
  title : String
  content : String
deriving DecidableEq

/-- `BaseAdapter.compute_source_hash(items)`: canonical items truncated
to `max_items`, projected to `{id, url, title, content}`, sorted by
`id`, wrapped as `{source, items}` and hashed. -/
def compute_source_hash (sha256hex : String → String) (source_name : String) (max_items : Nat)
    (items : List NormItem) : String :=
  let canonical_items := (items.take max_items).map (fun item =>
    HashEntry.mk item.id item.url (pyStrip (item.title.getD "")) (pyStrip item.content))
  let sorted := sortByKey HashEntry.id canonical_items
  sha256hex (canonical_json (JVal.mkObj [
    ("source", JVal.str source_name),
    ("items", JVal.mkArr (sorted.map (fun e =>
      JVal.mkObj [("id", JVal.str e.id), ("url", JVal.str e.url),
                  ("title", JVal.str e.title), ("content", JVal.str e.content)])))]))

-- ===== Raw items, fetch outcomes, configuration, fleet state =====

/-- A raw upstream item: a Python dict preserved verbatim. -/
abbrev RawItem := List (String × JVal)

/-- Python dict lookup (unique keys): first binding, as `d.get(k)`. -/
def rawGet (raw : RawItem) (k : String) : Option JVal :=
  match raw.find? (fun q => q.1 == k) with
  | some q => some q.2
  | Option.none => Option.none

/-- Lookup in a dict built by successive assignments `d[k] = v` inside a
loop, where later assignments overwrite earlier ones: the last binding
wins (`raw_items_map[normalized["id"]] = p`). -/
def dictGetLast {α : Type} (m : List (String × α)) (k : String) : Option α :=
  match m.reverse.find? (fun q => q.1 == k) with
  | some q => some q.2
  | Option.none => Option.none

/-- Outcome of `adapter.fetch()`: `(items, http_status, error_message)`. -/
structure FetchOutcome where
  items : List RawItem
  http_status : Int
  error_msg : Option String

/-- The recognised fields of one entry of `sources.config.json`:
`enabled`, `adapter`, `config.ttl_sec`, `config.max_items`,
`paths.latest`.  `Option.none` models an absent key. -/
structure SourceConfig where
  enabled : Bool
  adapter : Option String
  ttl_sec : Option Nat
  max_items : Option Nat
  paths_latest : Option String

/-- One per-source record of `diff/_state.json`. -/
structure StateEntry where
  last_hash : Option String := Option.none
  last_cursor : Option String := Option.none
  last_success_at : Option String := Option.none
  last_error : Option String := Option.none
  last_error_at : Option String := Option.none
deriving DecidableEq

/-- The second component returned by `process_source`: either the empty
dict (falsy, not persisted), an error update
`{last_error_at, last_error}`, or a success update
`{last_hash, last_cursor, last_success_at}`. -/
inductive StateUpdate where
  | empty : StateUpdate
  | errorUpdate (last_error_at last_error : String) : StateUpdate
  | okUpdate (last_hash last_cursor last_success_at : String) : StateUpdate
deriving DecidableEq

/-- Python `fleet_state[source_name].update(state_update)`: only the
keys present in the update overwrite the entry. -/
def applyUpdate (e : StateEntry) : StateUpdate → StateEntry
  | StateUpdate.empty => e
  | StateUpdate.errorUpdate t msg => { e with last_error_at := some t, last_error := some msg }
  | StateUpdate.okUpdate h c t =>
    { e with last_hash := some h, last_cursor := some c, last_success_at := some t }

/-- `fleet_state.get(source_name, {})` over the persisted mapping. -/
def fleetGet (fleet : List (String × StateEntry)) (name : String) : Option StateEntry :=
  match fleet.find? (fun q => q.1 == name) with
  | some q => some q.2
  | Option.none => Option.none

-- ===== Delta items and buckets =====

structure Risk where
  score : Nat
  reasons : List String
deriving DecidableEq

structure Provenance where
  fetched_at : String
  evidence_urls : List String
  content_hash : String
deriving DecidableEq

/-- One processed feed item (the dict built in the changed path of
`process_source`).  `signals` and `action_items` are empty in Phase 1.
`risk.score` is in exact tenths (see `calculate_risk_v0`). -/
structure DeltaItem where
  source : String
  id : String
  url : String
  title : Option String
  published_at : String
  updated_at : String
  signals : List JVal
  action_items : List JVal
  summary : String
  risk : Risk
  provenance : Provenance
  source_payload : Option JVal
deriving DecidableEq

instance : Inhabited DeltaItem :=
  ⟨{ source := "", id := "", url := "", title := Option.none, published_at := "",
     updated_at := "", signals := [], action_items := [], summary := "",
     risk := ⟨0, []⟩, provenance := ⟨"", [], ""⟩, source_payload := Option.none }⟩

structure Buckets where
  new : List DeltaItem
  updated : List DeltaItem
  removed : List DeltaItem
  flagged : List DeltaItem
deriving DecidableEq

def Buckets.empty : Buckets := ⟨[], [], [], []⟩

/-- The per-source result dict of `process_source`. -/
structure PerSourceResult where
  status : String
  changed : Bool
  cursor : String
  prev_cursor : String
  ttl_sec : Nat
  error : Option String
  buckets : Option Buckets
deriving DecidableEq

-- ===== Adapter factory =====

/-- The keys of `create_adapter`'s `adapter_map`; any other name raises
`ValueError`, caught by `process_source`'s outer `except`. -/
def adapterKnown (name : String) : Bool :=
  name == "rss" || name == "json" || name == "github_api" || name == "github_releases" ||
  name == "html" || name == "moltbook"

-- ===== process_source =====

def disabledResult (last_cursor : String) (ttl : Nat) : PerSourceResult :=
  { status := "disabled", changed := false, cursor := last_cursor, prev_cursor := last_cursor,
    ttl_sec := ttl, error := Option.none, buckets := Option.none }

def errorResult (last_cursor : String) (ttl : Nat) (err : String) : PerSourceResult :=
  { status := "error", changed := false, cursor := last_cursor, prev_cursor := last_cursor,
    ttl_sec := ttl, error := some err, buckets := Option.none }

def noChangeResult (last_cursor : String) (ttl : Nat) : PerSourceResult :=
  { status := "ok", changed := false, cursor := last_cursor, prev_cursor := last_cursor,
    ttl_sec := ttl, error := Option.none, buckets := some Buckets.empty }

/-- `prev_state.get("last_cursor", "")` followed by the zero-sentinel
fallback `if not last_cursor: last_cursor = "sha256:" + "0"*64`. -/
def prevCursorOf (fleet : List (String × StateEntry)) (source_name : String) : String :=
  let c := ((fleetGet fleet source_name).getD {}).last_cursor.getD ""
  if c = "" then zeroCursor else c

def optJTruthy : Option JVal → Bool
  | some v => pyTruthy v
  | Option.none => false

/-- Keys excluded from the fallback `source_payload` projection. -/
def normalizedFieldKeys : List String :=
  ["id", "post_id", "postId", "url", "title", "content",
   "created_at", "createdAt", "updated_at", "updatedAt"]

/-- The `source_payload` preservation logic of the changed path:
`raw_item.get("source_payload")`, falling back to the raw item minus
normalized fields; only truthy values are attached. -/
def extractSourcePayload (rawOpt : Option RawItem) : Option JVal :=
  let raw := rawOpt.getD []
  let sp0 := rawGet raw "source_payload"
  let sp1 :=
    if optJTruthy sp0 = false ∧ raw ≠ [] then
      let filtered := raw.filter (fun kv => ! (normalizedFieldKeys.contains kv.1))
      if filtered = [] then Option.none else some (JVal.obj (JObj.ofList filtered))
    else sp0
  match sp1 with
  | some v => if pyTruthy v then some v else Option.none
  | Option.none => Option.none

/-- The `processed_item` dict built for one normalized item in the
changed path of `process_source`. -/
def buildProcessedItem (sha256hex : String → String) (fetched_at : String) (http_status : Int)
    (rawMap : List (String × RawItem)) (item : NormItem) : DeltaItem :=
  let rr := calculate_risk_v0 item false (some http_status)
  let content_hash := compute_content_hash sha256hex item
  let raw_item := dictGetLast rawMap item.id
  { source := item.source, id := item.id, url := item.url,
    title := (match item.title with
      | some t => if t = "" then Option.none else some t
      | Option.none => Option.none),
    published_at := item.published_at, updated_at := item.updated_at,
    signals := [], action_items := [],
    summary := pyOrOpt item.title "Update detected.",
    risk := { score := max 0 (min 10 rr.1), reasons := rr.2.take 10 },
    provenance := { fetched_at := fetched_at, evidence_urls := [item.url],
                    content_hash := content_hash },
    source_payload := extractSourcePayload raw_item }

/-- The bucket-routing loop of the changed path: each item is appended
to `flagged` when `risk_score >= 0.4` (4 tenths) and to `new` otherwise,
and always appended to `processed_items`.  The loop computes
`risk_score` once and uses it for both the stored risk and the flag;
`buildProcessedItem` applies the same pure call. -/
def routeChangedItems (sha256hex : String → String) (fetched_at : String) (http_status : Int)
    (rawMap : List (String × RawItem)) (normalized_items : List NormItem) :
    Buckets × List DeltaItem :=
  normalized_items.foldl (fun acc item =>
    let rr := calculate_risk_v0 item false (some http_status)
    let processed_item := buildProcessedItem sha256hex fetched_at http_status rawMap item
    let b := if rr.1 ≥ 4 then { acc.1 with flagged := acc.1.flagged ++ [processed_item] }
             else { acc.1 with new := acc.1.new ++ [processed_item] }
    (b, acc.2 ++ [processed_item])) (Buckets.empty, [])

/-- One entry of the per-source cursor canonical payload
(`{id, url, title, content_hash}`). -/
structure CursorEntry where
  id : String
  url : String
  title : String
  content_hash : String
deriving DecidableEq

/-- The canonical feed payload of §4.6: `schema_version`,
`sources_included=[source]`, and the items projected to
`{id, url, title, content_hash}` sorted by `id`; `generated_at` and
timings are excluded. -/
def cursorPayload (source_name : String) (processed_items : List DeltaItem) : JVal :=
  JVal.mkObj [
    ("schema_version", JVal.str SCHEMA_VERSION),
    ("sources_included", JVal.mkArr [JVal.str source_name]),
    ("items", JVal.mkArr ((sortByKey CursorEntry.id (processed_items.map (fun i =>
        CursorEntry.mk i.id i.url (i.title.getD "") i.provenance.content_hash))).map (fun e =>
      JVal.mkObj [("id", JVal.str e.id), ("url", JVal.str e.url), ("title", JVal.str e.title),
                  ("content_hash", JVal.str e.content_hash)])))]

/--
`process_source(source_name, source_config, fleet_state)`.

The HTTP fetch and the wall clock are I/O, so the fetch outcome, the
adapter's pure `normalize_item`, and the timestamp delivered by
`now_iso()` are inputs.  The only exception reachable in the embedded
fragment is `create_adapter`'s `ValueError` for an unknown adapter
name, which the outer `except` turns into an error result.
-/
def process_source (sha256hex : String → String) (source_name : String) (sc : SourceConfig)
    (fleet : List (String × StateEntry)) (fetch : FetchOutcome)
    (normalize_item : RawItem → String → NormItem) (nowTs : String) :
    PerSourceResult × StateUpdate :=
  if sc.enabled = false then
    (disabledResult (prevCursorOf fleet source_name) (sc.ttl_sec.getD 60), StateUpdate.empty)
  else
    match sc.adapter with
    | Option.none =>
      ({ status := "error", changed := false, cursor := prevCursorOf fleet source_name,
         prev_cursor := prevCursorOf fleet source_name, ttl_sec := 60,
         error := some "No adapter specified", buckets := Option.none },
       StateUpdate.empty)
    | some adapter_name =>
      if adapterKnown adapter_name = false then
        (errorResult (prevCursorOf fleet source_name) (sc.ttl_sec.getD 60)
           ("ValueError: Unknown adapter type: " ++ adapter_name),
         StateUpdate.errorUpdate nowTs ("ValueError: Unknown adapter type: " ++ adapter_name))
      else if optStrTruthy fetch.error_msg || fetch.http_status != 200 then
        (errorResult (prevCursorOf fleet source_name) (sc.ttl_sec.getD 60)
           (pyOrOpt fetch.error_msg ("HTTP " ++ toString fetch.http_status)),
         StateUpdate.errorUpdate nowTs
           (pyOrOpt fetch.error_msg ("HTTP " ++ toString fetch.http_status)))
      else
        let max_items := sc.max_items.getD 50
        let fetched_at := nowTs
        let pairs := (fetch.items.take max_items).map (fun p => (normalize_item p fetched_at, p))
        let normalized_items := pairs.map Prod.fst
        let raw_items_map := pairs.map (fun q => (q.1.id, q.2))
        let source_hash := compute_source_hash sha256hex source_name max_items normalized_items
        let last_hash := ((fleetGet fleet source_name).getD {}).last_hash.getD ""
        let last_cursor := prevCursorOf fleet source_name
        if source_hash = last_hash then
          (noChangeResult last_cursor (sc.ttl_sec.getD 60),
           StateUpdate.okUpdate source_hash last_cursor fetched_at)
        else
          let routed := routeChangedItems sha256hex fetched_at fetch.http_status
            raw_items_map normalized_items
          let cursor := "sha256:" ++ sha256hex (canonical_json (cursorPayload source_name routed.2))
          ({ status := "ok", changed := true, cursor := cursor,
             prev_cursor := pyOr last_cursor zeroCursor, ttl_sec := sc.ttl_sec.getD 60,
             error := Option.none, buckets := some routed.1 },
           StateUpdate.okUpdate source_hash cursor fetched_at)

-- ===== Feed documents =====

/-- One entry of a feed document's `sources` map. -/
structure FeedSourceEntry where
  changed : Bool
  cursor : String
  prev_cursor : String
  ttl_sec : Nat
  status : String
  error : Option String
deriving DecidableEq

/-- A feed document (global or per-source). -/
structure FeedDocument where
  schema_version : String
  generated_at : String
  cursor : String
  prev_cursor : String
  changed : Bool
  ttl_sec : Nat
  sources_included : List String
  batch_narrative : String
  sources : List (String × FeedSourceEntry)
  buckets : Buckets
deriving DecidableEq

/-- The rendering `(result.get("cursor") or "").strip() or zero` used
for the global feed's `sources` map. -/
def renderCursor (s : String) : String :=
  pyOr (pyStrip (pyOr s "")) zeroCursor

/-- One entry of the global feed's `sources` map (main, feed build). -/
def globalSourcesEntry (r : PerSourceResult) : FeedSourceEntry :=
  { changed := r.changed, cursor := renderCursor r.cursor,
    prev_cursor := renderCursor r.prev_cursor, ttl_sec := r.ttl_sec,
    status := r.status, error := r.error }

-- ===== Batch narratives =====

/-- Words of `" ".join(parts) + "."` are counted by the shared
truncation idiom `words = narrative.split(); ...`. -/
def truncateNarrative (narrative : String) : String :=
  let words := pyWords narrative
  if words.length > 30 then String.intercalate " " (words.take 30) ++ "..." else narrative

/-- `item.get("title") or item.get("summary", "item")` on a processed
item: the `title` key is present only when truthy, and `summary` is
always present. -/
def itemTitleOrSummary (item : DeltaItem) : String :=
  pyOr (item.title.getD "") item.summary

/-- The `parts`-assembly shared by the global and per-source multi-change
narratives: counts of new/updated/removed inside parentheses, then the
flag count. -/
def narrativeParts (head : String) (new_count updated_count removed_count flagged_count : Nat) :
    String :=
  let parts := [head]
  let parts :=
    if new_count > 0 ∧ (updated_count > 0 ∨ removed_count > 0) then
      let subparts := (if new_count > 0 then [toString new_count ++ " new"] else []) ++
        (if updated_count > 0 then [toString updated_count ++ " updated"] else []) ++
        (if removed_count > 0 then [toString removed_count ++ " removed"] else [])
      parts ++ ["(" ++ String.intercalate ", " subparts ++ ")"]
    else if new_count > 0 then parts ++ ["(" ++ toString new_count ++ " new)"]
    else if updated_count > 0 then parts ++ ["(" ++ toString updated_count ++ " updated)"]
    else if removed_count > 0 then parts ++ ["(" ++ toString removed_count ++ " removed)"]
    else parts
  let parts := if flagged_count > 0 then parts ++ [toString flagged_count ++ " flagged"] else parts
  String.intercalate " " parts ++ "."

/-- The global `batch_narrative` generation of `main` (lines 797-846 of
the engine): branch on `global_changed`, the change total, and the
flagged count; only the multi-change branch truncates to 30 words. -/
def globalNarrative (global_changed : Bool) (b : Buckets) : String :=
  let total_changes := b.new.length + b.updated.length + b.removed.length
  let flagged_count := b.flagged.length
  if global_changed = false then "No changes detected."
  else if total_changes = 0 ∧ flagged_count > 0 then
    (if flagged_count = 1 then "1 flagged item detected."
     else toString flagged_count ++ " flagged items detected.")
  else if total_changes = 0 then "No changes detected."
  else if total_changes = 1 then
    let item := (b.new ++ b.updated ++ b.removed).headI
    let title := itemTitleOrSummary item
    let change_type :=
      if item ∈ b.new then "new" else if item ∈ b.updated then "updated" else "removed"
    pyCapitalize change_type ++ " " ++ sglQuote ++ pySlice title 40 ++ sglQuote ++ "."
  else
    truncateNarrative (narrativeParts (toString total_changes ++ " changes")
      b.new.length b.updated.length b.removed.length flagged_count)

/-- The per-source narrative for an enabled source (lines 953-993). -/
def perSourceNarrative (source_name : String) (changed : Bool) (b : Buckets) : String :=
  let source_total := b.new.length + b.updated.length + b.removed.length
  let source_flagged := b.flagged.length
  if changed = false then source_name ++ ": No changes detected."
  else if source_total = 0 ∧ source_flagged > 0 then
    source_name ++ ": " ++ toString source_flagged ++ " flagged item(s) detected."
  else if source_total = 0 then source_name ++ ": No changes detected."
  else if source_total = 1 then
    let item := (b.new ++ b.updated ++ b.removed).headI
    let title := itemTitleOrSummary item
    let change_type :=
      if item ∈ b.new then "new" else if item ∈ b.updated then "updated" else "removed"
    source_name ++ ": " ++ change_type ++ " " ++ sglQuote ++ pySlice title 40 ++ sglQuote ++ "."
  else
    truncateNarrative (narrativeParts (source_name ++ ": " ++ toString source_total ++ " changes")
      b.new.length b.updated.length b.removed.length source_flagged)

-- ===== Per-source feed build (main, lines 877-1015) =====

/-- The per-source feed document written for every configured source
that has a `paths.latest`: a minimal schema-valid feed for disabled and
error sources, the full result feed otherwise. -/
def perSourceFeed (source_name : String) (r : PerSourceResult) (generated_at : String) :
    FeedDocument :=
  if r.status = "disabled" then
    { schema_version := SCHEMA_VERSION, generated_at := generated_at,
      cursor := r.cursor, prev_cursor := r.prev_cursor, changed := false,
      ttl_sec := r.ttl_sec, sources_included := [source_name],
      batch_narrative := source_name ++ ": Source disabled.",
      sources := [(source_name,
        { changed := false, cursor := r.cursor, prev_cursor := r.prev_cursor,
          ttl_sec := r.ttl_sec, status := "disabled", error := Option.none })],
      buckets := Buckets.empty }
  else if r.status = "error" then
    { schema_version := SCHEMA_VERSION, generated_at := generated_at,
      cursor := r.cursor, prev_cursor := r.prev_cursor, changed := false,
      ttl_sec := r.ttl_sec, sources_included := [source_name],
      batch_narrative := source_name ++ ": Error - " ++ (r.error.getD "Unknown error") ++ ".",
      sources := [(source_name,
        { changed := false, cursor := r.cursor, prev_cursor := r.prev_cursor,
          ttl_sec := r.ttl_sec, status := "error", error := r.error })],
      buckets := Buckets.empty }
  else
    let b := r.buckets.getD Buckets.empty
    { schema_version := SCHEMA_VERSION, generated_at := generated_at,
      cursor := r.cursor, prev_cursor := r.prev_cursor, changed := r.changed,
      ttl_sec := r.ttl_sec, sources_included := [source_name],
      batch_narrative := perSourceNarrative source_name r.changed b,
      sources := [(source_name,
        { changed := r.changed, cursor := r.cursor, prev_cursor := r.prev_cursor,
          ttl_sec := r.ttl_sec, status := r.status, error := r.error })],
      buckets := b }

-- ===== The cycle (main) =====

/-- The per-source inputs of a cycle: the configured source (name and
config, in declaration order) together with the outcome its adapter's
`fetch()` would deliver and the adapter's pure `normalize_item`. -/
structure SourceSpec where
  name : String
  config : SourceConfig
  fetch : FetchOutcome
  normalize : RawItem → String → NormItem

/-- The inputs of one engine cycle: configured sources, the persisted
fleet state, the persisted `_global.last_cursor` (`""` when absent) and
the cycle timestamp. -/
structure CycleInput where
  specs : List SourceSpec
  fleet : List (String × StateEntry)
  globalPrevCursor : String
  nowTs : String

/-- What a cycle produces: the per-source results, the global feed, the
fact of the global feed being written, the per-source feed files
`(source, path, document)` and the merged fleet state. -/
structure CycleOutput where
  results : List (String × PerSourceResult)
  globalFeed : FeedDocument
  globalWritten : Bool
  perSourceFeeds : List (String × String × FeedDocument)
  fleetAfter : String → Option StateEntry
  savedGlobalCursor : String

/-- The `all_buckets` merge of `main`: buckets of changed results are
concatenated in declaration order. -/
def mergeAllBuckets (results : List PerSourceResult) : Buckets :=
  results.foldl (fun acc r =>
    if r.changed then
      match r.buckets with
      | some b =>
        { new := acc.new ++ b.new, updated := acc.updated ++ b.updated,
          removed := acc.removed ++ b.removed, flagged := acc.flagged ++ b.flagged }
      | Option.none => acc
    else acc) Buckets.empty

/-- The canonical payload of the global cursor:
`{schema_version, sources_included (sorted), sources: {name → {changed, cursor}}}`. -/
def globalCursorPayload (sources_included : List String)
    (source_results : List (String × PerSourceResult)) : JVal :=
  JVal.mkObj [
    ("schema_version", JVal.str SCHEMA_VERSION),
    ("sources_included", JVal.mkArr ((sortByKey (fun s => s) sources_included).map JVal.str)),
    ("sources", JVal.obj (JObj.ofList (source_results.map (fun p =>
      (p.1, JVal.mkObj [("changed", JVal.bool p.2.changed), ("cursor", JVal.str p.2.cursor)])))))]

/-- `main()` without its I/O shell: processes every configured source,
merges buckets, computes the global cursor (reset to the previous one
when nothing changed), builds the global feed, emits per-source feeds
for every source with a `paths.latest`, and merges the fleet state. -/
def runCycle (sha256hex : String → String) (ci : CycleInput) : CycleOutput :=
  let triples := ci.specs.map (fun sp =>
    (sp, process_source sha256hex sp.name sp.config ci.fleet sp.fetch sp.normalize ci.nowTs))
  let source_results := triples.map (fun t => (t.1.name, t.2.1))
  let updated_fleet := (triples.filter (fun t => t.2.2 ≠ StateUpdate.empty)).map
    (fun t => (t.1.name, t.2.2))
  let sources_included := ci.specs.map SourceSpec.name
  let global_changed := triples.any (fun t => t.2.1.changed)
  let all_buckets := mergeAllBuckets (triples.map (fun t => t.2.1))
  let global_cursor0 := "sha256:" ++
    sha256hex (canonical_json (globalCursorPayload sources_included source_results))
  let prev_global_cursor :=
    if ci.globalPrevCursor = "" then zeroCursor else ci.globalPrevCursor
  let global_cursor := if global_changed = false then prev_global_cursor else global_cursor0
  let feed : FeedDocument :=
    { schema_version := SCHEMA_VERSION, generated_at := ci.nowTs,
      cursor := global_cursor, prev_cursor := prev_global_cursor, changed := global_changed,
      ttl_sec := 60, sources_included := sortByKey (fun s => s) sources_included,
      batch_narrative := globalNarrative global_changed all_buckets,
      sources := source_results.map (fun p => (p.1, globalSourcesEntry p.2)),
      buckets := all_buckets }
  { results := source_results,
    globalFeed := feed,
    globalWritten := global_changed,
    perSourceFeeds := triples.filterMap (fun t =>
      -- `if not source_latest_path: continue` is a truthiness check: a
      -- missing `paths.latest` and the empty string are both skipped.
      match t.1.config.paths_latest with
      | some p =>
        if p = "" then Option.none
        else some (t.1.name, p, perSourceFeed t.1.name t.2.1 ci.nowTs)
      | Option.none => Option.none),
    fleetAfter := fun nm =>
      updated_fleet.foldl (fun acc u =>
        if u.1 = nm then some (applyUpdate (acc.getD {}) u.2) else acc) (fleetGet ci.fleet nm),
    savedGlobalCursor := global_cursor }

-- ===== Risk evaluator characterisation =====

/-- Blank test used by the risk reasons: `not s or not s.strip()`. -/
def blankStr (s : String) : Prop := s = "" ∨ pyStrip s = ""

instance (s : String) : Decidable (blankStr s) := by
  unfold blankStr; infer_instance

theorem calculate_risk_v0_eq (item : NormItem) (fetch_failed : Bool) (http_status : Option Int) :
    calculate_risk_v0 item fetch_failed http_status =
      (min 10 ((if blankStr (item.title.getD "") then 2 else 0) +
          (if blankStr item.url then 2 else 0) +
          (if blankStr item.content then 2 else 0) +
          (if fetch_failed || httpNon200 http_status then 5 else 0)),
        (if blankStr (item.title.getD "") then ["missing_title"] else []) ++
          (if blankStr item.url then ["missing_url"] else []) ++
          (if blankStr item.content then ["missing_content"] else []) ++
          (if fetch_failed || httpNon200 http_status then ["fetch_error"] else [])) := by
  unfold calculate_risk_v0 blankStr
  split_ifs <;> simp_all

theorem calculate_risk_v0_fst_le (item : NormItem) (fetch_failed : Bool)
    (http_status : Option Int) : (calculate_risk_v0 item fetch_failed http_status).1 ≤ 10 := by
  rw [calculate_risk_v0_eq]
  exact Nat.min_le_left 10 _

theorem calculate_risk_v0_reasons_le (item : NormItem) (fetch_failed : Bool)
    (http_status : Option Int) :
    (calculate_risk_v0 item fetch_failed http_status).2.length ≤ 10 := by
  rw [calculate_risk_v0_eq]
  split_ifs <;> simp

/-- The stored `risk.score` clamp `max(0.0, min(1.0, risk_score))` is
the identity on the evaluator's output. -/
theorem risk_clamp_id (item : NormItem) (fetch_failed : Bool) (http_status : Option Int) :
    max 0 (min 10 (calculate_risk_v0 item fetch_failed http_status).1) =
      (calculate_risk_v0 item fetch_failed http_status).1 := by
  have h := calculate_risk_v0_fst_le item fetch_failed http_status
  omega

theorem buildProcessedItem_risk (sha256hex : String → String) (fetched_at : String)
    (http_status : Int) (rawMap : List (String × RawItem)) (item : NormItem) :
    (buildProcessedItem sha256hex fetched_at http_status rawMap item).risk.score =
      (calculate_risk_v0 item false (some http_status)).1 := by
  unfold buildProcessedItem
  exact risk_clamp_id item false (some http_status)

-- ===== routeChangedItems characterisation =====

/-- The flag decision for one normalized item. -/
def itemFlagged (http_status : Int) (item : NormItem) : Bool :=
  (calculate_risk_v0 item false (some http_status)).1 ≥ 4

theorem routeChangedItems_spec (sha256hex : String → String) (fetched_at : String)
    (http_status : Int) (rawMap : List (String × RawItem)) :
    ∀ normalized_items : List NormItem,
    routeChangedItems sha256hex fetched_at http_status rawMap normalized_items =
      ({ new := (normalized_items.filter (fun it => ! itemFlagged http_status it)).map
            (buildProcessedItem sha256hex fetched_at http_status rawMap),
         updated := [], removed := [],
         flagged := (normalized_items.filter (itemFlagged http_status)).map
            (buildProcessedItem sha256hex fetched_at http_status rawMap) },
       normalized_items.map (buildProcessedItem sha256hex fetched_at http_status rawMap)) := by
  have step : ∀ (l : List NormItem) (acc : Buckets × List DeltaItem),
      l.foldl (fun acc item =>
        let rr := calculate_risk_v0 item false (some http_status)
        let processed_item := buildProcessedItem sha256hex fetched_at http_status rawMap item
        let b := if rr.1 ≥ 4 then { acc.1 with flagged := acc.1.flagged ++ [processed_item] }
                 else { acc.1 with new := acc.1.new ++ [processed_item] }
        (b, acc.2 ++ [processed_item])) acc =
      ({ new := acc.1.new ++ (l.filter (fun it => ! itemFlagged http_status it)).map
            (buildProcessedItem sha256hex fetched_at http_status rawMap),
         updated := acc.1.updated, removed := acc.1.removed,
         flagged := acc.1.flagged ++ (l.filter (itemFlagged http_status)).map
            (buildProcessedItem sha256hex fetched_at http_status rawMap) },
       acc.2 ++ l.map (buildProcessedItem sha256hex fetched_at http_status rawMap)) := by
    intro l
    induction l with
    | nil => intro acc; simp
    | cons x xs ih =>
      intro acc
      rw [List.foldl_cons, ih]
      by_cases hx : itemFlagged http_status x
      · have hx4 : (calculate_risk_v0 x false (some http_status)).1 ≥ 4 := by
          simpa [itemFlagged] using hx
        simp [hx, hx4, List.filter_cons]
      · have hx4 : ¬ (calculate_risk_v0 x false (some http_status)).1 ≥ 4 := by
          simpa [itemFlagged] using hx
        simp [hx, hx4, List.filter_cons]
  intro normalized_items
  rw [routeChangedItems, step normalized_items (Buckets.empty, [])]
  simp [Buckets.empty]

-- ===== process_source branch facts =====

theorem process_source_disabled (sha256hex : String → String) (source_name : String)
    (sc : SourceConfig) (fleet : List (String × StateEntry)) (fetch : FetchOutcome)
    (normalize_item : RawItem → String → NormItem) (nowTs : String)
    (hen : sc.enabled = false) :
    process_source sha256hex source_name sc fleet fetch normalize_item nowTs =
      (disabledResult (prevCursorOf fleet source_name) (sc.ttl_sec.getD 60),
       StateUpdate.empty) := by
  simp [process_source, hen]

theorem process_source_no_adapter (sha256hex : String → String) (source_name : String)
    (sc : SourceConfig) (fleet : List (String × StateEntry)) (fetch : FetchOutcome)
    (normalize_item : RawItem → String → NormItem) (nowTs : String)
    (hen : sc.enabled = true) (had : sc.adapter = Option.none) :
    process_source sha256hex source_name sc fleet fetch normalize_item nowTs =
      ({ status := "error", changed := false, cursor := prevCursorOf fleet source_name,
         prev_cursor := prevCursorOf fleet source_name, ttl_sec := 60,
         error := some "No adapter specified", buckets := Option.none },
       StateUpdate.empty) := by
  simp [process_source, hen, had]

theorem process_source_unknown_adapter (sha256hex : String → String) (source_name : String)
    (sc : SourceConfig) (fleet : List (String × StateEntry)) (fetch : FetchOutcome)
    (normalize_item : RawItem → String → NormItem) (nowTs : String)
    (hen : sc.enabled = true) (a : String) (had : sc.adapter = some a)
    (hk : adapterKnown a = false) :
    process_source sha256hex source_name sc fleet fetch normalize_item nowTs =
      (errorResult (prevCursorOf fleet source_name) (sc.ttl_sec.getD 60)
         ("ValueError: Unknown adapter type: " ++ a),
       StateUpdate.errorUpdate nowTs ("ValueError: Unknown adapter type: " ++ a)) := by
  simp [process_source, hen, had, hk]

theorem process_source_fetch_error (sha256hex : String → String) (source_name : String)
    (sc : SourceConfig) (fleet : List (String × StateEntry)) (fetch : FetchOutcome)
    (normalize_item : RawItem → String → NormItem) (nowTs : String)
    (hen : sc.enabled = true) (a : String) (had : sc.adapter = some a)
    (hk : adapterKnown a = true)
    (hbad : (optStrTruthy fetch.error_msg || fetch.http_status != 200) = true) :
    process_source sha256hex source_name sc fleet fetch normalize_item nowTs =
      (errorResult (prevCursorOf fleet source_name) (sc.ttl_sec.getD 60)
         (pyOrOpt fetch.error_msg ("HTTP " ++ toString fetch.http_status)),
       StateUpdate.errorUpdate nowTs
         (pyOrOpt fetch.error_msg ("HTTP " ++ toString fetch.http_status))) := by
  simp [process_source, hen, had, hk, hbad]

theorem process_source_no_change (sha256hex : String → String) (source_name : String)
    (sc : SourceConfig) (fleet : List (String × StateEntry)) (fetch : FetchOutcome)
    (normalize_item : RawItem → String → NormItem) (nowTs : String)
    (hen : sc.enabled = true) (a : String) (had : sc.adapter = some a)
    (hk : adapterKnown a = true)
    (hok : (optStrTruthy fetch.error_msg || fetch.http_status != 200) = false)
    (hsame : compute_source_hash sha256hex source_name (sc.max_items.getD 50)
        (((fetch.items.take (sc.max_items.getD 50)).map
          (fun p => (normalize_item p nowTs, p))).map Prod.fst) =
      ((fleetGet fleet source_name).getD {}).last_hash.getD "") :
    process_source sha256hex source_name sc fleet fetch normalize_item nowTs =
      (noChangeResult (prevCursorOf fleet source_name) (sc.ttl_sec.getD 60),
       StateUpdate.okUpdate (((fleetGet fleet source_name).getD {}).last_hash.getD "")
         (prevCursorOf fleet source_name) nowTs) := by
  have hsame2 := hsame
  simp only [List.map_map, List.map_take] at hsame2
  simp [process_source, hen, had, hk, hok, hsame2]

theorem process_source_changed (sha256hex : String → String) (source_name : String)
    (sc : SourceConfig) (fleet : List (String × StateEntry)) (fetch : FetchOutcome)
    (normalize_item : RawItem → String → NormItem) (nowTs : String)
    (hen : sc.enabled = true) (a : String) (had : sc.adapter = some a)
    (hk : adapterKnown a = true)
    (hok : (optStrTruthy fetch.error_msg || fetch.http_status != 200) = false)
    (hdiff : compute_source_hash sha256hex source_name (sc.max_items.getD 50)
        (((fetch.items.take (sc.max_items.getD 50)).map
          (fun p => (normalize_item p nowTs, p))).map Prod.fst) ≠
      ((fleetGet fleet source_name).getD {}).last_hash.getD "") :
    process_source sha256hex source_name sc fleet fetch normalize_item nowTs =
      (let pairs := (fetch.items.take (sc.max_items.getD 50)).map
          (fun p => (normalize_item p nowTs, p))
       let routed := routeChangedItems sha256hex nowTs fetch.http_status
          (pairs.map (fun q => (q.1.id, q.2))) (pairs.map Prod.fst)
       let cursor := "sha256:" ++
          sha256hex (canonical_json (cursorPayload source_name routed.2))
       ({ status := "ok", changed := true, cursor := cursor,
          prev_cursor := pyOr (prevCursorOf fleet source_name) zeroCursor,
          ttl_sec := sc.ttl_sec.getD 60, error := Option.none, buckets := some routed.1 },
        StateUpdate.okUpdate (compute_source_hash sha256hex source_name (sc.max_items.getD 50)
          (pairs.map Prod.fst)) cursor nowTs)) := by
  have hdiff2 := hdiff
  simp only [List.map_map, List.map_take] at hdiff2
  simp [process_source, hen, had, hk, hok, hdiff2]

-- ===== Rational views of tenth-scores =====

theorem tenths_ge_threshold {n : Nat} (h : 4 ≤ n) : (0.4 : ℚ) ≤ (n : ℚ) / 10 := by
  have hc : (4 : ℚ) ≤ (n : ℚ) := by exact_mod_cast h
  rw [show (0.4 : ℚ) = 4 / 10 by norm_num]
  exact (div_le_div_iff_of_pos_right (by norm_num)).mpr hc

theorem tenths_lt_threshold {n : Nat} (h : n < 4) : (n : ℚ) / 10 < 0.4 := by
  have hc : (n : ℚ) < 4 := by exact_mod_cast h
  rw [show (0.4 : ℚ) = 4 / 10 by norm_num]
  exact (div_lt_div_iff_of_pos_right (by norm_num)).mpr hc

-- ===== C1: the cursor stability invariant =====

/--
C1: for every per-source result and for the global feed document
produced by a cycle, `changed = false` implies `cursor = prev_cursor`,
in every branch of `process_source` (disabled, missing adapter, unknown
adapter, fetch error, no-change short circuit) and in the global feed
built by `main`.
-/
theorem c1_cursor_stability :
    (∀ (sha256hex : String → String) (source_name : String) (sc : SourceConfig)
        (fleet : List (String × StateEntry)) (fetch : FetchOutcome)
        (normalize_item : RawItem → String → NormItem) (nowTs : String),
      (process_source sha256hex source_name sc fleet fetch normalize_item nowTs).1.changed = false →
      (process_source sha256hex source_name sc fleet fetch normalize_item nowTs).1.cursor =
        (process_source sha256hex source_name sc fleet fetch normalize_item nowTs).1.prev_cursor) ∧
    (∀ (sha256hex : String → String) (ci : CycleInput),
      (runCycle sha256hex ci).globalFeed.changed = false →
      (runCycle sha256hex ci).globalFeed.cursor =
        (runCycle sha256hex ci).globalFeed.prev_cursor) := by
  constructor
  · intro sha source_name sc fleet fetch norm nowTs h
    cases hen : sc.enabled with
    | false =>
      rw [process_source_disabled sha source_name sc fleet fetch norm nowTs hen]
      rfl
    | true =>
      cases had : sc.adapter with
      | none =>
        rw [process_source_no_adapter sha source_name sc fleet fetch norm nowTs hen had]
      | some a =>
        cases hk : adapterKnown a with
        | false =>
          rw [process_source_unknown_adapter sha source_name sc fleet fetch norm nowTs hen a had hk]
          rfl
        | true =>
          cases hbad : (optStrTruthy fetch.error_msg || fetch.http_status != 200) with
          | true =>
            rw [process_source_fetch_error sha source_name sc fleet fetch norm nowTs hen a had hk hbad]
            rfl
          | false =>
            by_cases hsame : compute_source_hash sha source_name (sc.max_items.getD 50)
                (((fetch.items.take (sc.max_items.getD 50)).map
                  (fun p => (norm p nowTs, p))).map Prod.fst) =
              ((fleetGet fleet source_name).getD {}).last_hash.getD ""
            · rw [process_source_no_change sha source_name sc fleet fetch norm nowTs hen a had hk
                hbad hsame]
              rfl
            · rw [process_source_changed sha source_name sc fleet fetch norm nowTs hen a had hk
                hbad hsame] at h
              simp at h
  · intro sha ci h
    simp only [runCycle] at h ⊢
    simp only [h, if_pos]

-- Concrete cycle inputs used by witnesses and counterexamples.

/-- A fixed stand-in for the external SHA-256 hex digest. -/
def cstHash : String → String := fun _ => "h"

def wNorm : NormItem :=
  { source := "s", id := "i", url := "u", title := some "T",
    published_at := "p", updated_at := "q", content := "c" }

def wDisabledCfg : SourceConfig :=
  { enabled := false, adapter := Option.none, ttl_sec := Option.none,
    max_items := Option.none, paths_latest := some "diff/source/s/latest.json" }

def wOkFetch : FetchOutcome := { items := [], http_status := 200, error_msg := Option.none }

def wCycleDisabled : CycleInput :=
  { specs := [{ name := "s", config := wDisabledCfg, fetch := wOkFetch,
                normalize := fun _ _ => wNorm }],
    fleet := [], globalPrevCursor := "", nowTs := "t" }

theorem c1_cursor_stability_witness :
    (process_source cstHash "s" wDisabledCfg [] wOkFetch (fun _ _ => wNorm) "t").1.changed = false ∧
    (process_source cstHash "s" wDisabledCfg [] wOkFetch (fun _ _ => wNorm) "t").1.cursor =
      (process_source cstHash "s" wDisabledCfg [] wOkFetch (fun _ _ => wNorm) "t").1.prev_cursor ∧
    (runCycle cstHash wCycleDisabled).globalFeed.changed = false ∧
    (runCycle cstHash wCycleDisabled).globalFeed.cursor =
      (runCycle cstHash wCycleDisabled).globalFeed.prev_cursor :=
  ⟨by decide,
   c1_cursor_stability.1 cstHash "s" wDisabledCfg [] wOkFetch (fun _ _ => wNorm) "t" (by decide),
   by decide,
   c1_cursor_stability.2 cstHash wCycleDisabled (by decide)⟩

-- ===== C3: quarantine =====

/--
C3: in a changed per-source result, every processed item with risk
score at least 0.4 (4 tenths) is placed only in the `flagged` bucket and
never also in `new`, `updated` or `removed`; items below the threshold
go to `new`.  The `updated` and `removed` buckets are empty in this
evaluator.
-/
theorem c3_quarantine (sha256hex : String → String) (source_name : String) (sc : SourceConfig)
    (fleet : List (String × StateEntry)) (fetch : FetchOutcome)
    (normalize_item : RawItem → String → NormItem) (nowTs : String) (b : Buckets)
    (hb : (process_source sha256hex source_name sc fleet fetch normalize_item nowTs).1.buckets =
      some b)
    (hch : (process_source sha256hex source_name sc fleet fetch normalize_item nowTs).1.changed =
      true) :
    b.updated = [] ∧ b.removed = [] ∧
    (∀ d ∈ b.flagged, 4 ≤ d.risk.score ∧ (0.4 : ℚ) ≤ (d.risk.score : ℚ) / 10 ∧
      d ∉ b.new ∧ d ∉ b.updated ∧ d ∉ b.removed) ∧
    (∀ d ∈ b.new, d.risk.score < 4 ∧ (d.risk.score : ℚ) / 10 < 0.4) := by
  cases hen : sc.enabled with
  | false =>
    rw [process_source_disabled sha256hex source_name sc fleet fetch normalize_item nowTs hen]
      at hb
    simp [disabledResult] at hb
  | true =>
    cases had : sc.adapter with
    | none =>
      rw [process_source_no_adapter sha256hex source_name sc fleet fetch normalize_item nowTs
        hen had] at hb
      simp at hb
    | some a =>
      cases hk : adapterKnown a with
      | false =>
        rw [process_source_unknown_adapter sha256hex source_name sc fleet fetch normalize_item
          nowTs hen a had hk] at hb
        simp [errorResult] at hb
      | true =>
        cases hbad : (optStrTruthy fetch.error_msg || fetch.http_status != 200) with
        | true =>
          rw [process_source_fetch_error sha256hex source_name sc fleet fetch normalize_item
            nowTs hen a had hk hbad] at hb
          simp [errorResult] at hb
        | false =>
          by_cases hsame : compute_source_hash sha256hex source_name (sc.max_items.getD 50)
              (((fetch.items.take (sc.max_items.getD 50)).map
                (fun p => (normalize_item p nowTs, p))).map Prod.fst) =
            ((fleetGet fleet source_name).getD {}).last_hash.getD ""
          · rw [process_source_no_change sha256hex source_name sc fleet fetch normalize_item
              nowTs hen a had hk hbad hsame] at hch
            simp [noChangeResult] at hch
          · rw [process_source_changed sha256hex source_name sc fleet fetch normalize_item
              nowTs hen a had hk hbad hsame] at hb
            simp only [Option.some_inj] at hb
            rw [routeChangedItems_spec] at hb
            subst hb
            refine ⟨rfl, rfl, ?_, ?_⟩
            · intro d hd
              simp only [List.mem_map, List.mem_filter] at hd
              obtain ⟨it, ⟨hmem, hflag⟩, hdev⟩ := hd
              have hscore : d.risk.score = (calculate_risk_v0 it false
                  (some fetch.http_status)).1 := by
                rw [← hdev]
                exact buildProcessedItem_risk sha256hex nowTs fetch.http_status _ it
              have h4 : 4 ≤ d.risk.score := by
                rw [hscore]
                simpa [itemFlagged] using hflag
              refine ⟨h4, tenths_ge_threshold h4, ?_, by simp, by simp⟩
              intro hdnew
              simp only [List.mem_map, List.mem_filter] at hdnew
              obtain ⟨it2, ⟨_, hnf⟩, hdev2⟩ := hdnew
              have hscore2 : d.risk.score = (calculate_risk_v0 it2 false
                  (some fetch.http_status)).1 := by
                rw [← hdev2]
                exact buildProcessedItem_risk sha256hex nowTs fetch.http_status _ it2
              have : ¬ 4 ≤ (calculate_risk_v0 it2 false (some fetch.http_status)).1 := by
                simpa [itemFlagged] using hnf
              omega
            · intro d hd
              simp only [List.mem_map, List.mem_filter] at hd
              obtain ⟨it, ⟨hmem, hnf⟩, hdev⟩ := hd
              have hscore : d.risk.score = (calculate_risk_v0 it false
                  (some fetch.http_status)).1 := by
                rw [← hdev]
                exact buildProcessedItem_risk sha256hex nowTs fetch.http_status _ it
              have hlt : d.risk.score < 4 := by
                have : ¬ 4 ≤ (calculate_risk_v0 it false (some fetch.http_status)).1 := by
                  simpa [itemFlagged] using hnf
                omega
              exact ⟨hlt, tenths_lt_threshold hlt⟩

def w3Cfg : SourceConfig :=
  { enabled := true, adapter := some "rss", ttl_sec := Option.none,
    max_items := Option.none, paths_latest := some "diff/source/s/latest.json" }

/-- A normalized item with blank title, url and content (risk 0.6). -/
def w3FlaggedNorm : NormItem :=
  { source := "s", id := "f1", url := "", title := Option.none,
    published_at := "p", updated_at := "q", content := "" }

def w3Normalize : RawItem → String → NormItem :=
  fun raw _ => if raw.length = 0 then w3FlaggedNorm else wNorm

def w3Fetch : FetchOutcome :=
  { items := [[], [("k", JVal.null)]], http_status := 200, error_msg := Option.none }

def w3B : Buckets :=
  (process_source cstHash "s" w3Cfg [] w3Fetch w3Normalize "t").1.buckets.getD Buckets.empty

theorem c3_quarantine_witness :
    (process_source cstHash "s" w3Cfg [] w3Fetch w3Normalize "t").1.buckets = some w3B ∧
    (process_source cstHash "s" w3Cfg [] w3Fetch w3Normalize "t").1.changed = true ∧
    (w3B.updated = [] ∧ w3B.removed = [] ∧
      (∀ d ∈ w3B.flagged, 4 ≤ d.risk.score ∧ (0.4 : ℚ) ≤ (d.risk.score : ℚ) / 10 ∧
        d ∉ w3B.new ∧ d ∉ w3B.updated ∧ d ∉ w3B.removed) ∧
      (∀ d ∈ w3B.new, d.risk.score < 4 ∧ (d.risk.score : ℚ) / 10 < 0.4)) :=
  ⟨rfl, by decide,
   c3_quarantine cstHash "s" w3Cfg [] w3Fetch w3Normalize "t" w3B rfl (by decide)⟩

-- ===== C4: risk evaluator =====

/--
C4: `calculate_risk_v0` is a pure function of the normalized item and
the transport outcome; it contributes additively +0.2 (2 tenths) with
reason `missing_title` / `missing_url` / `missing_content` for each
missing-or-blank field and +0.5 (5 tenths) with reason `fetch_error`
when the transport failed or the HTTP status is not 200; the score is
capped at 1.0 (10 tenths), lies in [0, 1], and the reasons list has at
most 10 entries.
-/
theorem c4_risk_evaluator (item : NormItem) (fetch_failed : Bool) (http_status : Option Int) :
    calculate_risk_v0 item fetch_failed http_status =
      (min 10 ((if blankStr (item.title.getD "") then 2 else 0) +
          (if blankStr item.url then 2 else 0) +
          (if blankStr item.content then 2 else 0) +
          (if fetch_failed || httpNon200 http_status then 5 else 0)),
        (if blankStr (item.title.getD "") then ["missing_title"] else []) ++
          (if blankStr item.url then ["missing_url"] else []) ++
          (if blankStr item.content then ["missing_content"] else []) ++
          (if fetch_failed || httpNon200 http_status then ["fetch_error"] else [])) ∧
    (0 : ℚ) ≤ ((calculate_risk_v0 item fetch_failed http_status).1 : ℚ) / 10 ∧
    ((calculate_risk_v0 item fetch_failed http_status).1 : ℚ) / 10 ≤ 1 ∧
    (calculate_risk_v0 item fetch_failed http_status).2.length ≤ 10 := by
  refine ⟨calculate_risk_v0_eq item fetch_failed http_status, ?_, ?_,
    calculate_risk_v0_reasons_le item fetch_failed http_status⟩
  · apply div_nonneg _ (by norm_num)
    exact_mod_cast Nat.zero_le _
  · rw [div_le_one (by norm_num)]
    have h := calculate_risk_v0_fst_le item fetch_failed http_status
    exact_mod_cast h

-- ===== C2: empty fetch with a different previous hash =====

def c2Fleet : List (String × StateEntry) :=
  [("s", { last_hash := some "different", last_cursor := some "sha256:prev" })]

/-- Counterexample to C2 as stated: an enabled source, a clean HTTP 200
fetch with an empty item list, and a previous `last_hash` different
from the hash of the empty cycle; the code takes the changed path, so
`changed = true` and the cursor is not preserved. -/
theorem c2_empty_cycle_counterexample :
    (process_source cstHash "s" w3Cfg c2Fleet wOkFetch w3Normalize "t").1.changed = true ∧
    (process_source cstHash "s" w3Cfg c2Fleet wOkFetch w3Normalize "t").1.cursor ≠
      (process_source cstHash "s" w3Cfg c2Fleet wOkFetch w3Normalize "t").1.prev_cursor := by
  constructor
  · decide
  · decide

/--
C2 amended: for an enabled source with a known adapter whose fetch
succeeds (no truthy error, HTTP 200) with an empty item list, while the
previous `last_hash` differs from the source hash of the empty cycle,
the result has `changed = true` with a freshly computed cursor over the
empty canonical payload; all four buckets (in particular `removed`) are
empty, and the state update records the new hash and cursor.
-/
theorem c2_empty_cycle_amended (sha256hex : String → String) (source_name : String)
    (sc : SourceConfig) (fleet : List (String × StateEntry)) (fetch : FetchOutcome)
    (normalize_item : RawItem → String → NormItem) (nowTs : String)
    (hen : sc.enabled = true) (a : String) (had : sc.adapter = some a)
    (hk : adapterKnown a = true)
    (hok : (optStrTruthy fetch.error_msg || fetch.http_status != 200) = false)
    (hitems : fetch.items = [])
    (hdiff : compute_source_hash sha256hex source_name (sc.max_items.getD 50) [] ≠
      ((fleetGet fleet source_name).getD {}).last_hash.getD "") :
    (process_source sha256hex source_name sc fleet fetch normalize_item nowTs).1.changed = true ∧
    (process_source sha256hex source_name sc fleet fetch normalize_item nowTs).1.status = "ok" ∧
    (process_source sha256hex source_name sc fleet fetch normalize_item nowTs).1.buckets =
      some Buckets.empty ∧
    (process_source sha256hex source_name sc fleet fetch normalize_item nowTs).1.cursor =
      "sha256:" ++ sha256hex (canonical_json (cursorPayload source_name [])) ∧
    (process_source sha256hex source_name sc fleet fetch normalize_item nowTs).2 =
      StateUpdate.okUpdate (compute_source_hash sha256hex source_name (sc.max_items.getD 50) [])
        ("sha256:" ++ sha256hex (canonical_json (cursorPayload source_name []))) nowTs := by
  have hdiff2 : compute_source_hash sha256hex source_name (sc.max_items.getD 50)
      (((fetch.items.take (sc.max_items.getD 50)).map
        (fun p => (normalize_item p nowTs, p))).map Prod.fst) ≠
      ((fleetGet fleet source_name).getD {}).last_hash.getD "" := by
    rw [hitems]
    simpa using hdiff
  rw [process_source_changed sha256hex source_name sc fleet fetch normalize_item nowTs hen a
    had hk hok hdiff2]
  simp [hitems, routeChangedItems]

theorem c2_empty_cycle_amended_witness :
    (process_source cstHash "s" w3Cfg c2Fleet wOkFetch w3Normalize "t").1.changed = true ∧
    (process_source cstHash "s" w3Cfg c2Fleet wOkFetch w3Normalize "t").1.status = "ok" ∧
    (process_source cstHash "s" w3Cfg c2Fleet wOkFetch w3Normalize "t").1.buckets =
      some Buckets.empty ∧
    (process_source cstHash "s" w3Cfg c2Fleet wOkFetch w3Normalize "t").1.cursor =
      "sha256:" ++ cstHash (canonical_json (cursorPayload "s" [])) ∧
    (process_source cstHash "s" w3Cfg c2Fleet wOkFetch w3Normalize "t").2 =
      StateUpdate.okUpdate (compute_source_hash cstHash "s" 50 [])
        ("sha256:" ++ cstHash (canonical_json (cursorPayload "s" []))) "t" :=
  c2_empty_cycle_amended cstHash "s" w3Cfg c2Fleet wOkFetch w3Normalize "t" rfl "rss" rfl
    (by decide) (by decide) rfl (by decide)

-- ===== C5: duplicate ids within a cycle =====

def c5DupNorm : NormItem :=
  { source := "s", id := "dup", url := "u", title := some "T",
    published_at := "p", updated_at := "q", content := "c" }

def c5Fetch : FetchOutcome :=
  { items := [[("n", JVal.num 1)], [("n", JVal.num 2)]], http_status := 200,
    error_msg := Option.none }

/-- Counterexample to C5 as stated: two fetched items normalize to the
same id and the buckets keep both occurrences, so a bucket holds two
items with the same id. -/
theorem c5_duplicate_ids_counterexample :
    (((process_source cstHash "s" w3Cfg c2Fleet c5Fetch (fun _ _ => c5DupNorm)
        "t").1.buckets.getD Buckets.empty).new.map DeltaItem.id) = ["dup", "dup"] := by
  decide

theorem filter_length_split {α : Type} (p : α → Bool) (l : List α) :
    (l.filter p).length + (l.filter (fun a => ! p a)).length = l.length := by
  induction l with
  | nil => rfl
  | cons x xs ih =>
    by_cases hx : p x
    · simp [List.filter_cons, hx, ← ih]
      omega
    · simp [List.filter_cons, hx, ← ih]
      omega

/--
C5 amended: within a single cycle no per-id deduplication is performed:
every fetched occurrence (after the `max_items` cap) is processed and
placed in exactly one of `new`/`flagged`, so the buckets may contain
several items with the same id; `updated` and `removed` stay empty.
(Only the raw-item map used for `source_payload` extraction collapses
duplicates, keeping the last raw occurrence.)
-/
theorem c5_no_dedup_amended (sha256hex : String → String) (source_name : String)
    (sc : SourceConfig) (fleet : List (String × StateEntry)) (fetch : FetchOutcome)
    (normalize_item : RawItem → String → NormItem) (nowTs : String)
    (hen : sc.enabled = true) (a : String) (had : sc.adapter = some a)
    (hk : adapterKnown a = true)
    (hok : (optStrTruthy fetch.error_msg || fetch.http_status != 200) = false)
    (hdiff : compute_source_hash sha256hex source_name (sc.max_items.getD 50)
        (((fetch.items.take (sc.max_items.getD 50)).map
          (fun p => (normalize_item p nowTs, p))).map Prod.fst) ≠
      ((fleetGet fleet source_name).getD {}).last_hash.getD "") (b : Buckets)
    (hb : (process_source sha256hex source_name sc fleet fetch normalize_item nowTs).1.buckets =
      some b) :
    b.new.length + b.flagged.length = (fetch.items.take (sc.max_items.getD 50)).length ∧
    b.updated = [] ∧ b.removed = [] := by
  rw [process_source_changed sha256hex source_name sc fleet fetch normalize_item nowTs hen a
    had hk hok hdiff] at hb
  simp only [Option.some_inj] at hb
  rw [routeChangedItems_spec] at hb
  subst hb
  refine ⟨?_, rfl, rfl⟩
  simp only [List.length_map]
  rw [Nat.add_comm]
  rw [filter_length_split (itemFlagged fetch.http_status)]
  simp

theorem c5_no_dedup_amended_witness :
    ((process_source cstHash "s" w3Cfg c2Fleet c5Fetch (fun _ _ => c5DupNorm)
        "t").1.buckets.getD Buckets.empty).new.length +
      ((process_source cstHash "s" w3Cfg c2Fleet c5Fetch (fun _ _ => c5DupNorm)
        "t").1.buckets.getD Buckets.empty).flagged.length =
      (c5Fetch.items.take (w3Cfg.max_items.getD 50)).length ∧
    ((process_source cstHash "s" w3Cfg c2Fleet c5Fetch (fun _ _ => c5DupNorm)
        "t").1.buckets.getD Buckets.empty).updated = [] ∧
    ((process_source cstHash "s" w3Cfg c2Fleet c5Fetch (fun _ _ => c5DupNorm)
        "t").1.buckets.getD Buckets.empty).removed = [] :=
  c5_no_dedup_amended cstHash "s" w3Cfg c2Fleet c5Fetch (fun _ _ => c5DupNorm) "t" rfl "rss"
    rfl (by decide) (by decide) (by decide) _ rfl

-- ===== C9: transport errors =====

/--
C9: for an enabled source with a known adapter whose fetch reports a
transport or decode error (a non-empty error message, or a non-2xx
status — either implies the code's `error_msg or http_status != 200`
check), the result has `status = "error"`, `changed = false`, and
cursor equal to the previous cursor (zero sentinel when absent); the
state update only sets `last_error` / `last_error_at`, leaving
`last_hash` and `last_cursor` of the merged entry unchanged.
-/
theorem c9_error_state_atomicity (sha256hex : String → String) (source_name : String)
    (sc : SourceConfig) (fleet : List (String × StateEntry)) (fetch : FetchOutcome)
    (normalize_item : RawItem → String → NormItem) (nowTs : String)
    (hen : sc.enabled = true) (a : String) (had : sc.adapter = some a)
    (hk : adapterKnown a = true)
    (herr : (∃ m, fetch.error_msg = some m ∧ m ≠ "") ∨
      ¬ (200 ≤ fetch.http_status ∧ fetch.http_status ≤ 299)) :
    (process_source sha256hex source_name sc fleet fetch normalize_item nowTs).1.status =
      "error" ∧
    (process_source sha256hex source_name sc fleet fetch normalize_item nowTs).1.changed =
      false ∧
    (process_source sha256hex source_name sc fleet fetch normalize_item nowTs).1.cursor =
      prevCursorOf fleet source_name ∧
    (process_source sha256hex source_name sc fleet fetch normalize_item nowTs).1.prev_cursor =
      prevCursorOf fleet source_name ∧
    (process_source sha256hex source_name sc fleet fetch normalize_item nowTs).2 =
      StateUpdate.errorUpdate nowTs
        (pyOrOpt fetch.error_msg ("HTTP " ++ toString fetch.http_status)) ∧
    (∀ e : StateEntry,
      (applyUpdate e (process_source sha256hex source_name sc fleet fetch normalize_item
        nowTs).2).last_hash = e.last_hash ∧
      (applyUpdate e (process_source sha256hex source_name sc fleet fetch normalize_item
        nowTs).2).last_cursor = e.last_cursor ∧
      (applyUpdate e (process_source sha256hex source_name sc fleet fetch normalize_item
        nowTs).2).last_error =
        some (pyOrOpt fetch.error_msg ("HTTP " ++ toString fetch.http_status)) ∧
      (applyUpdate e (process_source sha256hex source_name sc fleet fetch normalize_item
        nowTs).2).last_error_at = some nowTs) := by
  have hbad : (optStrTruthy fetch.error_msg || fetch.http_status != 200) = true := by
    rcases herr with ⟨m, hm, hne⟩ | hst
    · simp [optStrTruthy, hm, hne]
    · have : fetch.http_status ≠ 200 := by omega
      simp [this]
  rw [process_source_fetch_error sha256hex source_name sc fleet fetch normalize_item nowTs hen
    a had hk hbad]
  refine ⟨rfl, rfl, rfl, rfl, rfl, ?_⟩
  intro e
  exact ⟨rfl, rfl, rfl, rfl⟩

def c9Fetch : FetchOutcome :=
  { items := [], http_status := 503, error_msg := Option.none }

theorem c9_error_state_atomicity_witness :
    (process_source cstHash "s" w3Cfg c2Fleet c9Fetch w3Normalize "t").1.status = "error" ∧
    (process_source cstHash "s" w3Cfg c2Fleet c9Fetch w3Normalize "t").1.changed = false ∧
    (process_source cstHash "s" w3Cfg c2Fleet c9Fetch w3Normalize "t").1.cursor =
      prevCursorOf c2Fleet "s" ∧
    (process_source cstHash "s" w3Cfg c2Fleet c9Fetch w3Normalize "t").1.prev_cursor =
      prevCursorOf c2Fleet "s" ∧
    (process_source cstHash "s" w3Cfg c2Fleet c9Fetch w3Normalize "t").2 =
      StateUpdate.errorUpdate "t"
        (pyOrOpt c9Fetch.error_msg ("HTTP " ++ toString c9Fetch.http_status)) ∧
    (∀ e : StateEntry,
      (applyUpdate e (process_source cstHash "s" w3Cfg c2Fleet c9Fetch w3Normalize
        "t").2).last_hash = e.last_hash ∧
      (applyUpdate e (process_source cstHash "s" w3Cfg c2Fleet c9Fetch w3Normalize
        "t").2).last_cursor = e.last_cursor ∧
      (applyUpdate e (process_source cstHash "s" w3Cfg c2Fleet c9Fetch w3Normalize
        "t").2).last_error =
        some (pyOrOpt c9Fetch.error_msg ("HTTP " ++ toString c9Fetch.http_status)) ∧
      (applyUpdate e (process_source cstHash "s" w3Cfg c2Fleet c9Fetch w3Normalize
        "t").2).last_error_at = some "t") :=
  c9_error_state_atomicity cstHash "s" w3Cfg c2Fleet c9Fetch w3Normalize "t" rfl "rss" rfl
    (by decide) (Or.inr (by decide))

-- ===== C8: canonical-hash key-permutation stability =====

/--
C8: permuting the member order of objects at any nesting level of a
JSON-compatible value leaves the canonical JSON byte encoding
unchanged, and therefore leaves every hash (content hash, source hash)
and every cursor derived from the encoding unchanged, for any hex
digest function.
-/
theorem c8_canonical_key_permutation {v w : JVal} (h : KeyPerm v w) :
    canonical_json v = canonical_json w ∧
    (∀ sha256hex : String → String,
      sha256hex (canonical_json v) = sha256hex (canonical_json w) ∧
      "sha256:" ++ sha256hex (canonical_json v) =
        "sha256:" ++ sha256hex (canonical_json w)) := by
  have hc : canonStr v = canonStr w := keyPerm_canonStr h
  refine ⟨hc, ?_⟩
  intro sha256hex
  rw [canonical_json, canonical_json, hc]
  exact ⟨rfl, rfl⟩

def c8Left : JObj :=
  JObj.cons "b" (JVal.num 1) (JObj.cons "a" (JVal.str "x") JObj.nil)

def c8Right : JObj :=
  JObj.cons "a" (JVal.str "x") (JObj.cons "b" (JVal.num 1) JObj.nil)

theorem c8Perm : KeyPerm (JVal.obj c8Left) (JVal.obj c8Right) :=
  KeyPerm.obj
    (KeyPermObj.cons "b" (KeyPerm.num 1) (KeyPermObj.cons "a" (KeyPerm.str "x") KeyPermObj.nil))
    (List.Perm.swap ("a", JVal.str "x") ("b", JVal.num 1) [])
    (by decide)

theorem c8_canonical_key_permutation_witness :
    canonical_json (JVal.obj c8Left) = canonical_json (JVal.obj c8Right) ∧
    (∀ sha256hex : String → String,
      sha256hex (canonical_json (JVal.obj c8Left)) =
        sha256hex (canonical_json (JVal.obj c8Right)) ∧
      "sha256:" ++ sha256hex (canonical_json (JVal.obj c8Left)) =
        "sha256:" ++ sha256hex (canonical_json (JVal.obj c8Right))) :=
  c8_canonical_key_permutation c8Perm

-- ===== C10: published cursors are usable tokens =====

theorem pyOr_empty_right (s : String) : pyOr s "" = s := by
  unfold pyOr
  split <;> simp_all

theorem renderCursor_eq (s : String) : renderCursor s = pyOr (pyStrip s) zeroCursor := by
  unfold renderCursor
  rw [pyOr_empty_right]

theorem renderCursor_usable (s : String) :
    (renderCursor s).data.any (fun c => ! c.isWhitespace) = true := by
  rw [renderCursor_eq]
  unfold pyOr
  split
  · decide
  · rename_i h
    exact pyStrip_has_non_whitespace s h

/--
C10: in the global feed's `sources` map every `cursor` and
`prev_cursor` is never empty or whitespace-only: blank values are
rendered as the zero sentinel, and every published value contains a
non-whitespace character, so each is a usable ETag token.
-/
theorem c10_published_cursors :
    (∀ s : String, pyStrip s = "" → renderCursor s = zeroCursor) ∧
    (∀ (sha256hex : String → String) (ci : CycleInput) (e : String × FeedSourceEntry),
      e ∈ (runCycle sha256hex ci).globalFeed.sources →
      e.2.cursor.data.any (fun c => ! c.isWhitespace) = true ∧
      e.2.prev_cursor.data.any (fun c => ! c.isWhitespace) = true ∧
      e.2.cursor ≠ "" ∧ e.2.prev_cursor ≠ "") := by
  constructor
  · intro s h
    rw [renderCursor_eq]
    unfold pyOr
    simp [h]
  · intro sha ci e he
    simp only [runCycle] at he
    rw [List.mem_map] at he
    obtain ⟨p, hp, rfl⟩ := he
    refine ⟨renderCursor_usable _, renderCursor_usable _, ?_, ?_⟩
    · intro heq
      have h1 : ((globalSourcesEntry p.2).cursor).data.any (fun c => ! c.isWhitespace) = true :=
        renderCursor_usable _
      rw [heq] at h1
      simp at h1
    · intro heq
      have h1 : ((globalSourcesEntry p.2).prev_cursor).data.any
          (fun c => ! c.isWhitespace) = true := renderCursor_usable _
      rw [heq] at h1
      simp at h1

theorem c10_published_cursors_witness :
    pyStrip " " = "" ∧ renderCursor " " = zeroCursor ∧
    (("s", globalSourcesEntry (process_source cstHash "s" wDisabledCfg [] wOkFetch
        (fun _ _ => wNorm) "t").1) ∈ (runCycle cstHash wCycleDisabled).globalFeed.sources) ∧
    ((globalSourcesEntry (process_source cstHash "s" wDisabledCfg [] wOkFetch
        (fun _ _ => wNorm) "t").1).cursor.data.any (fun c => ! c.isWhitespace) = true ∧
      (globalSourcesEntry (process_source cstHash "s" wDisabledCfg [] wOkFetch
        (fun _ _ => wNorm) "t").1).prev_cursor.data.any (fun c => ! c.isWhitespace) = true ∧
      (globalSourcesEntry (process_source cstHash "s" wDisabledCfg [] wOkFetch
        (fun _ _ => wNorm) "t").1).cursor ≠ "" ∧
      (globalSourcesEntry (process_source cstHash "s" wDisabledCfg [] wOkFetch
        (fun _ _ => wNorm) "t").1).prev_cursor ≠ "") :=
  ⟨by decide, c10_published_cursors.1 " " (by decide), by decide,
   c10_published_cursors.2 cstHash wCycleDisabled
     ("s", globalSourcesEntry (process_source cstHash "s" wDisabledCfg [] wOkFetch
       (fun _ _ => wNorm) "t").1) (by decide)⟩

-- ===== C6: narrative bound =====

/-- An error message of 31 whitespace-delimited words, as a feed parse
or request error string can easily be. -/
def c6ErrMsg : String :=
  "w w w w w w w w w w w w w w w w w w w w w w w w w w w w w w w"

def c6Fetch : FetchOutcome :=
  { items := [], http_status := 200, error_msg := some c6ErrMsg }

def c6Cycle : CycleInput :=
  { specs := [{ name := "s", config := w3Cfg, fetch := c6Fetch, normalize := fun _ _ => wNorm }],
    fleet := [], globalPrevCursor := "", nowTs := "t" }

/--
C6 failing input: the per-source feed of an error source interpolates
the error message into `batch_narrative` without the 30-word truncation
(the truncation only guards the multi-change branch, despite the code's
own `max 30 words per SPEC.md` comment), so a 31-word error message
yields a 34-word narrative.
-/
theorem c6_narrative_bound_failing :
    (pyWords (perSourceFeed "s" (process_source cstHash "s" w3Cfg [] c6Fetch
      (fun _ _ => wNorm) "t").1 "t").batch_narrative).length = 34 ∧
    30 < (pyWords (perSourceFeed "s" (process_source cstHash "s" w3Cfg [] c6Fetch
      (fun _ _ => wNorm) "t").1 "t").batch_narrative).length ∧
    (("s", "diff/source/s/latest.json", perSourceFeed "s" (process_source cstHash "s" w3Cfg []
      c6Fetch (fun _ _ => wNorm) "t").1 "t") ∈ (runCycle cstHash c6Cycle).perSourceFeeds) := by
  refine ⟨by decide, by decide, by decide⟩

-- ===== C7: publication policy =====

def c7NoPathCfg : SourceConfig :=
  { enabled := false, adapter := Option.none, ttl_sec := Option.none,
    max_items := Option.none, paths_latest := Option.none }

def c7Cycle : CycleInput :=
  { specs := [{ name := "s", config := c7NoPathCfg, fetch := wOkFetch,
                normalize := fun _ _ => wNorm }],
    fleet := [], globalPrevCursor := "", nowTs := "t" }

/-- Counterexample to C7 as stated: a configured source with no
`paths.latest` gets no per-source feed at all (the loop `continue`s),
so the per-source feed is not written unconditionally for every
configured source. -/
theorem c7_publication_counterexample :
    c7Cycle.specs.length = 1 ∧ (runCycle cstHash c7Cycle).perSourceFeeds = [] := by
  refine ⟨rfl, by decide⟩

/--
C7 amended: the global feed file is written exactly when at least one
source changed; a per-source feed is written for every configured
source whose `paths.latest` is a non-empty string (the loop's
`if not source_latest_path: continue` truthiness check skips a source
whose `paths.latest` is absent or the empty string) — including
disabled and error sources, whose feeds have `changed=false`, all four
buckets empty, and cursor equal to the result's cursor, which itself
equals the previous cursor (zero sentinel when none).
-/
theorem c7_publication :
    (∀ (sha256hex : String → String) (ci : CycleInput),
      (runCycle sha256hex ci).globalWritten = true ↔
        ∃ pr ∈ (runCycle sha256hex ci).results, pr.2.changed = true) ∧
    (∀ (sha256hex : String → String) (ci : CycleInput) (sp : SourceSpec), sp ∈ ci.specs →
      ∀ p, sp.config.paths_latest = some p → p ≠ "" →
      (sp.name, p, perSourceFeed sp.name
          (process_source sha256hex sp.name sp.config ci.fleet sp.fetch sp.normalize
            ci.nowTs).1 ci.nowTs) ∈ (runCycle sha256hex ci).perSourceFeeds) ∧
    (∀ (sha256hex : String → String) (ci : CycleInput),
      (∀ sp ∈ ci.specs, sp.config.paths_latest = Option.none ∨
        sp.config.paths_latest = some "") →
      (runCycle sha256hex ci).perSourceFeeds = []) ∧
    (∀ (name : String) (r : PerSourceResult) (t : String),
      r.status = "disabled" ∨ r.status = "error" →
      (perSourceFeed name r t).changed = false ∧
      (perSourceFeed name r t).buckets = Buckets.empty ∧
      (perSourceFeed name r t).cursor = r.cursor ∧
      (perSourceFeed name r t).prev_cursor = r.prev_cursor) ∧
    (∀ (sha256hex : String → String) (source_name : String) (sc : SourceConfig)
        (fleet : List (String × StateEntry)) (fetch : FetchOutcome)
        (normalize_item : RawItem → String → NormItem) (nowTs : String),
      ((process_source sha256hex source_name sc fleet fetch normalize_item nowTs).1.status =
          "disabled" ∨
        (process_source sha256hex source_name sc fleet fetch normalize_item nowTs).1.status =
          "error") →
      (process_source sha256hex source_name sc fleet fetch normalize_item nowTs).1.cursor =
        (process_source sha256hex source_name sc fleet fetch normalize_item nowTs).1.prev_cursor) := by
  refine ⟨?_, ?_, ?_, ?_, ?_⟩
  · intro sha ci
    simp only [runCycle]
    rw [List.any_eq_true]
    constructor
    · rintro ⟨t, ht, hch⟩
      exact ⟨(t.1.name, t.2.1), List.mem_map_of_mem _ ht, hch⟩
    · rintro ⟨pr, hpr, hch⟩
      rw [List.mem_map] at hpr
      obtain ⟨t, ht, rfl⟩ := hpr
      exact ⟨t, ht, hch⟩
  · intro sha ci sp hsp p hp hpne
    simp only [runCycle]
    rw [List.mem_filterMap]
    refine ⟨(sp, process_source sha sp.name sp.config ci.fleet sp.fetch sp.normalize ci.nowTs),
      List.mem_map_of_mem _ hsp, ?_⟩
    simp [hp, hpne]
  · intro sha ci hall
    simp only [runCycle]
    rw [List.filterMap_eq_nil_iff]
    intro t ht
    rw [List.mem_map] at ht
    obtain ⟨sp, hsp, rfl⟩ := ht
    rcases hall sp hsp with hnone | hblank
    · simp [hnone]
    · simp [hblank]
  · intro name r t h
    rcases h with h | h
    · simp [perSourceFeed, h]
    · by_cases hd : r.status = "disabled"
      · rw [hd] at h
        simp at h
      · simp [perSourceFeed, hd, h]
  · intro sha source_name sc fleet fetch norm nowTs h
    cases hen : sc.enabled with
    | false =>
      rw [process_source_disabled sha source_name sc fleet fetch norm nowTs hen]
      rfl
    | true =>
      cases had : sc.adapter with
      | none =>
        rw [process_source_no_adapter sha source_name sc fleet fetch norm nowTs hen had]
      | some a =>
        cases hk : adapterKnown a with
        | false =>
          rw [process_source_unknown_adapter sha source_name sc fleet fetch norm nowTs hen a
            had hk]
          rfl
        | true =>
          cases hbad : (optStrTruthy fetch.error_msg || fetch.http_status != 200) with
          | true =>
            rw [process_source_fetch_error sha source_name sc fleet fetch norm nowTs hen a had
              hk hbad]
            rfl
          | false =>
            by_cases hsame : compute_source_hash sha source_name (sc.max_items.getD 50)
                (((fetch.items.take (sc.max_items.getD 50)).map
                  (fun p => (norm p nowTs, p))).map Prod.fst) =
              ((fleetGet fleet source_name).getD {}).last_hash.getD ""
            · rw [process_source_no_change sha source_name sc fleet fetch norm nowTs hen a had
                hk hbad hsame]
              rfl
            · rw [process_source_changed sha source_name sc fleet fetch norm nowTs hen a had hk
                hbad hsame] at h
              simp at h

/-- A configured source whose `paths.latest` is the empty string: falsy
in Python, so the write loop skips it. -/
def c7EmptyPathCfg : SourceConfig :=
  { enabled := false, adapter := Option.none, ttl_sec := Option.none,
    max_items := Option.none, paths_latest := some "" }

def c7EmptyPathCycle : CycleInput :=
  { specs := [{ name := "s", config := c7EmptyPathCfg, fetch := wOkFetch,
                normalize := fun _ _ => wNorm }],
    fleet := [], globalPrevCursor := "", nowTs := "t" }

theorem c7_publication_witness :
    ((runCycle cstHash wCycleDisabled).globalWritten = true ↔
      ∃ pr ∈ (runCycle cstHash wCycleDisabled).results, pr.2.changed = true) ∧
    (("s", "diff/source/s/latest.json", perSourceFeed "s"
        (process_source cstHash "s" wDisabledCfg [] wOkFetch (fun _ _ => wNorm) "t").1 "t") ∈
      (runCycle cstHash wCycleDisabled).perSourceFeeds) ∧
    (runCycle cstHash c7EmptyPathCycle).perSourceFeeds = [] ∧
    ((perSourceFeed "s" (disabledResult zeroCursor 60) "t").changed = false ∧
      (perSourceFeed "s" (disabledResult zeroCursor 60) "t").buckets = Buckets.empty ∧
      (perSourceFeed "s" (disabledResult zeroCursor 60) "t").cursor =
        (disabledResult zeroCursor 60).cursor ∧
      (perSourceFeed "s" (disabledResult zeroCursor 60) "t").prev_cursor =
        (disabledResult zeroCursor 60).prev_cursor) ∧
    (process_source cstHash "s" wDisabledCfg [] wOkFetch (fun _ _ => wNorm) "t").1.cursor =
      (process_source cstHash "s" wDisabledCfg [] wOkFetch (fun _ _ => wNorm) "t").1.prev_cursor :=
  ⟨c7_publication.1 cstHash wCycleDisabled,
   c7_publication.2.1 cstHash wCycleDisabled
     { name := "s", config := wDisabledCfg, fetch := wOkFetch, normalize := fun _ _ => wNorm }
     (List.mem_singleton.mpr rfl) "diff/source/s/latest.json" rfl (by decide),
   c7_publication.2.2.1 cstHash c7EmptyPathCycle
     (by
       intro sp hsp
       simp only [c7EmptyPathCycle, List.mem_singleton] at hsp
       subst hsp
       exact Or.inr rfl),
   c7_publication.2.2.2.1 "s" (disabledResult zeroCursor 60) "t" (Or.inl rfl),
   c7_publication.2.2.2.2 cstHash "s" wDisabledCfg [] wOkFetch (fun _ _ => wNorm) "t"
     (Or.inl (by decide))⟩
